import Mathlib

/-!
Verification of the AI-GameMaster turn orchestration engine.

This file embeds the rules engine (`gm_worker/app/services/gameplay_rules.py`),
the phase dispatcher and turn scheduler (`gm_worker/app/tasks/game_logic.py`)
and the data model (`models/schemas.py`) as executable Lean definitions, and
proves/refutes the frozen specification claims about them.

Modelling conventions:
* Python dicts (insertion ordered) are association lists `List (String × α)`;
  assignment updates an existing key in place or appends a new binding.
* `random.randint(a, b)` draws from an explicit stream of integers (`Rng`);
  a draw returns the head clamped into `[a, b]` (so every draw satisfies the
  `randint` contract) and the tail stream.
* LLM calls (`gemini_service`) are an oracle value supplied as an argument;
  the oracle carries the structured responses the code would parse.
* Python exceptions that are not caught inside a handler abort the whole
  celery task before any database write; such paths are `Except.error ()`.
* Python truthiness on strings/lists/options is modelled explicitly
  (`"" `/ `[]` / `none` are falsy).
-/

namespace GM

/-- Python dict lookup `d.get(k)` on an insertion-ordered dict. -/
def dictGet {α : Type} (d : List (String × α)) (k : String) : Option α :=
  match d.find? (fun kv => kv.1 == k) with
  | some kv => some kv.2
  | none => none

/-- Python dict lookup with default `d.get(k, v)`. -/
def dictGetD {α : Type} (d : List (String × α)) (k : String) (v : α) : α :=
  (dictGet d k).getD v

/-- Python dict membership `k in d`. -/
def dictContains {α : Type} (d : List (String × α)) (k : String) : Bool :=
  (dictGet d k).isSome

/-- Python dict assignment `d[k] = v`: update in place, else append. -/
def dictInsert {α : Type} (d : List (String × α)) (k : String) (v : α) :
    List (String × α) :=
  match d with
  | [] => [(k, v)]
  | kv :: rest =>
    if kv.1 == k then (k, v) :: rest else kv :: dictInsert rest k v

/-- Update the value stored at key `k` (Python: mutate the object found by
`d.get(k)` in place); no effect when the key is absent. -/
def dictModify {α : Type} (d : List (String × α)) (k : String) (f : α → α) :
    List (String × α) :=
  match d with
  | [] => []
  | kv :: rest =>
    if kv.1 == k then (kv.1, f kv.2) :: rest else kv :: dictModify rest k f

/-- Python dict comprehension `{key e : e for e in l}`. -/
def dictOfList {α : Type} (l : List (String × α)) : List (String × α) :=
  l.foldl (fun d kv => dictInsert d kv.1 kv.2) []

/-- The explicit stream standing in for Python's global `random` generator. -/
structure Rng where
  stream : List Int
deriving Repr, DecidableEq

/-- `random.randint lo hi`: consume one stream element, clamped into the
contractual range `[lo, hi]` so that every draw is a valid roll. -/
def Rng.randint (g : Rng) (lo hi : Int) : Int × Rng :=
  match g.stream with
  | [] => (lo, ⟨[]⟩)
  | x :: rest => (if lo ≤ x ∧ x ≤ hi then x else lo, ⟨rest⟩)

theorem Rng.randint_mem (g : Rng) (lo hi : Int) (h : lo ≤ hi) :
    lo ≤ (g.randint lo hi).1 ∧ (g.randint lo hi).1 ≤ hi := by
  cases g with
  | mk s =>
    cases s with
    | nil => simpa [Rng.randint] using h
    | cons x rest =>
      simp only [Rng.randint]
      by_cases hx : lo ≤ x ∧ x ≤ hi
      · simp only [if_pos hx]
        exact hx
      · simpa [hx] using h

/-- Python floor division `//` (rounds toward negative infinity). -/
def pyFloorDiv (a b : Int) : Int := Int.fdiv a b

-- ### Data model (models/schemas.py)

structure Item where
  name : String
  description : Option String := none
  category : String := "misc"
deriving Repr, DecidableEq

structure Effect where
  name : String
  description : String
  duration_turns : Int
  modifiers : List (String × Int) := []
deriving Repr, DecidableEq

structure Quest where
  quest_id : String
  title : String
  description : String
  objectives : List String
  status : String := "offered"
deriving Repr, DecidableEq

/-- Bestiary template entity. -/
structure Entity where
  name : String
  description : String
  health : Int
  stats : List (String × Int) := []
  is_hostile : Bool := false
  abilities : List String := []
deriving Repr, DecidableEq

/-- An entity instantiated in the scene, with its own instance id. -/
structure SceneEntity where
  instance_id : String
  name : String
  description : String
  health : Int
  stats : List (String × Int) := []
  is_hostile : Bool := false
  abilities : List String := []
deriving Repr, DecidableEq

structure SceneContext where
  location_name : String := "An unknown place"
  description : String := "The air is still and the surroundings are shrouded in mystery."
  entities : List SceneEntity := []
deriving Repr, DecidableEq

structure PlayerCharacter where
  character_id : String
  name : String
  age : Int
  gender : String
  backstory : String
  character_class : String
  level : Int := 1
  xp : Int := 0
  stats : List (String × Int) := []
  skills : List String := []
  conditions : List Effect := []
  health : Int := 100
  max_health : Int := 100
  inventory : List Item := []
  currency : Int := 0
deriving Repr, DecidableEq

structure ClassOption where
  name : String
  description : String
  positive_attribute : String
  starting_weapon : String
  starting_currency : Int
  starting_object : String
  base_stats : List (String × Int)
  initial_abilities : List String := []
deriving Repr, DecidableEq

/-- Model of the `main_plot` JSON dict: only the keys the code reads. -/
structure MainPlot where
  synopsis : Option String := none
  key_milestones : Option (List String) := none
  final_boss : Option String := none
deriving Repr, DecidableEq

structure WorldOption where
  name : String
  description : String
  main_plot_hook : String
  main_plot : MainPlot
  initial_bestiary : List Entity := []
deriving Repr, DecidableEq

/-- Secret pre-rolled context of a skill check awaiting confirmation. -/
structure PendingAction where
  acting_character_id : String
  action_text : String
  stat_name : String
  modifier : Int
  dc : Int
  dice_roll : Int
  is_success : Bool
deriving Repr, DecidableEq

/-- The single source of truth for a game session. -/
structure GameState where
  session_id : String
  game_id : String
  game_phase : String
  world : Option WorldOption := none
  players : List (String × PlayerCharacter) := []
  party_inventory : List Item := []
  party_currency : Int := 0
  scene_context : SceneContext := {}
  quest_log : List Quest := []
  story_summary : String := "The story is just beginning."
  previous_turn_narrative : Option String := none
  main_plot : Option MainPlot := none
  bestiary : List (String × Entity) := []
  current_turn_entity_id : Option String := none
  initiative_order : List String := []
  pending_action : Option PendingAction := none
  world_selection_options : Option (List WorldOption) := none
  class_selection_options : Option (List ClassOption) := none
  num_players_to_create : Int := 0
  characters_created : Int := 0
  pending_character_class : Option ClassOption := none
deriving Repr, DecidableEq

structure PlayerIntent where
  intent_type : String
  action_description : String
  item_name : Option String := none
  is_acquisition : Bool := false
  target : Option String := none
  relevant_stat : Option String := none
  required_dc : Option Int := none
deriving Repr, DecidableEq

-- ### Python string helpers

/-- Python `str.title()`: uppercase every letter following a non-letter,
lowercase every other letter. -/
def pyTitle (s : String) : String :=
  let step : Bool × List Char → Char → Bool × List Char := fun acc c =>
    if c.isAlpha then
      (true, (if acc.1 then c.toLower else c.toUpper) :: acc.2)
    else (false, c :: acc.2)
  String.mk ((s.toList.foldl step (false, [])).2.reverse)

/-- Python `str.lower()`, character-list model of `String.toLower` (the core
function recurses on byte positions and does not reduce in the kernel; this
model is proved equal to it in `strToLower_eq_toLower`). -/
def strToLower (s : String) : String :=
  String.mk (s.data.map Char.toLower)

theorem strToLower_eq_toLower (s : String) : s.toLower = strToLower s :=
  String.map_eq Char.toLower s

/-- Python `str.strip()`: drop whitespace from both ends. -/
def pyStrip (s : String) : String :=
  String.mk (((s.data.dropWhile Char.isWhitespace).reverse.dropWhile
    Char.isWhitespace).reverse)

/-- Python `s.split(",")`, character-list model of `String.splitOn ","`. -/
def splitOnCommaAux : List Char → List Char → List String
  | [], acc => [String.mk acc.reverse]
  | c :: rest, acc =>
    if c = ',' then String.mk acc.reverse :: splitOnCommaAux rest []
    else splitOnCommaAux rest (c :: acc)

def splitOnComma (s : String) : List String :=
  splitOnCommaAux s.data []

/-- Python `str.startswith`, character-list model of `String.startsWith`. -/
def strStartsWith (s pre : String) : Bool :=
  pre.data.isPrefixOf s.data

/-- Substring containment, Python `needle in hay`. -/
def strContainsSub (hay needle : String) : Bool :=
  hay.toList.tails.any (fun t => needle.toList.isPrefixOf t)

/-- Python `int(s)`: optional sign then decimal digits, surrounding
whitespace ignored. -/
def pyInt? (s : String) : Option Int :=
  let cs := (pyStrip s).toList
  let signed : Bool × List Char :=
    match cs with
    | '-' :: rest => (true, rest)
    | '+' :: rest => (false, rest)
    | _ => (false, cs)
  if signed.2 ≠ [] ∧ signed.2.all Char.isDigit then
    let n : Nat := signed.2.foldl (fun acc c => acc * 10 + (c.toNat - 48)) 0
    some (if signed.1 then -(n : Int) else (n : Int))
  else none

/-- Python `s.rsplit(",", 3)`: split at the last three commas only. -/
def pyRsplitComma3 (s : String) : List String :=
  let parts := splitOnComma s
  if parts.length ≤ 4 then parts
  else
    String.intercalate "," (parts.take (parts.length - 3)) ::
      parts.drop (parts.length - 3)

/-- Python `x or default` on an optional integer (`0` and `None` are falsy). -/
def pyOrInt (v : Option Int) (d : Int) : Int :=
  match v with
  | some x => if x ≠ 0 then x else d
  | none => d

/-- Format an integer with an explicit sign, Python `f"{n:+}"`. -/
def fmtSigned (n : Int) : String :=
  if n ≥ 0 then "+" ++ toString n else toString n

-- ### Rules engine (services/gameplay_rules.py)

def INCOHERENT_ITEM_KEYWORDS : List String :=
  ["laser", "pistol", "spaceship", "computer", "phone", "gun"]

/-- The combatant list formed in `initiate_combat`: all players in insertion
order, then every scene entity flagged hostile in list order (health is not
consulted). Each combatant contributes the id the code extracts
(`character_id` for players, `instance_id` for scene entities) and its
dexterity stat (default 10). -/
def combatantsOf (gs : GameState) : List (String × Int) :=
  gs.players.map (fun kv => (kv.2.character_id, dictGetD kv.2.stats "dexterity" 10))
    ++ (gs.scene_context.entities.filter (fun e => e.is_hostile)).map
        (fun e => (e.instance_id, dictGetD e.stats "dexterity" 10))

/-- Roll `d20 + dexterity modifier` for each combatant in order; a combatant
whose id is falsy (empty) is still rolled for but not recorded. -/
def rollInitiative : List (String × Int) → Rng → List (String × Int) × Rng
  | [], g => ([], g)
  | c :: rest, g =>
    let dexMod := pyFloorDiv (c.2 - 10) 2
    let (r, g1) := g.randint 1 20
    let (tail, g2) := rollInitiative rest g1
    (if c.1 ≠ "" then (c.1, r + dexMod) :: tail else tail, g2)

/-- Insert into a descending-by-roll list: after strictly greater rolls,
before equal ones. Folding this over the input reproduces the stable
descending sort `list.sort(key=lambda x: x[1], reverse=True)`. -/
def insertDesc (x : String × Int) : List (String × Int) → List (String × Int)
  | [] => [x]
  | y :: ys => if y.2 > x.2 then y :: insertDesc x ys else x :: y :: ys

/-- Stable descending sort by roll. -/
def sortByRollDesc (l : List (String × Int)) : List (String × Int) :=
  l.foldr insertDesc []

/-- `initiate_combat`: phase to IN_COMBAT, roll initiative for players plus
hostile entities, sort descending (stable), and point the turn at the top
entry when the order is nonempty. -/
def initiate_combat (gs : GameState) (g : Rng) : GameState × Rng :=
  let gs1 : GameState := { gs with game_phase := "IN_COMBAT" }
  let rolled := rollInitiative (combatantsOf gs1) g
  let order := (sortByRollDesc rolled.1).map (fun p => p.1)
  let gs2 : GameState := { gs1 with initiative_order := order }
  match order with
  | [] => (gs2, rolled.2)
  | top :: _ => ({ gs2 with current_turn_entity_id := some top }, rolled.2)

/-- `_apply_effects`: total modifier from all active conditions. A
stat-specific modifier is added when truthy (present and nonzero), and an
`"all"` modifier is added on top — both can apply to the same roll. -/
def apply_effects (p : PlayerCharacter) (relevant_stat : String) : Int :=
  p.conditions.foldl
    (fun total eff =>
      let total :=
        if relevant_stat ≠ "" ∧ dictGetD eff.modifiers relevant_stat 0 ≠ 0 then
          total + dictGetD eff.modifiers relevant_stat 0
        else total
      if dictGetD eff.modifiers "all" 0 ≠ 0 then
        total + dictGetD eff.modifiers "all" 0
      else total)
    0

/-- Remove the first inventory item whose lowercased name equals `lname`
(Python finds the first name match and `list.remove`s it). -/
def removeFirstItem (inv : List Item) (lname : String) : List Item :=
  match inv with
  | [] => []
  | it :: rest =>
    if strToLower it.name == lname then rest else it :: removeFirstItem rest lname

/-- `handle_inventory_intent`. The acting player object lives in the players
dict at key `pkey` (the key the caller fetched it from); in-place mutation of
the object is modelled by writing back at that key. -/
def handle_inventory_intent (intent : PlayerIntent) (gs : GameState)
    (pkey : String) (p : PlayerCharacter) : GameState × String :=
  match intent.item_name with
  | none => (gs, "The player specified no item.")
  | some n0 =>
    if n0 = "" then (gs, "The player specified no item.")
    else
      let item_name := pyTitle n0
      if intent.is_acquisition then
        if INCOHERENT_ITEM_KEYWORDS.any (fun kw => strContainsSub (strToLower item_name) kw) then
          (gs, "The player\x27s attempt to find a \x27" ++ item_name ++
            "\x27 failed because such an object is entirely foreign to this world.")
        else if ¬ p.inventory.any (fun it => strToLower it.name == strToLower item_name) then
          let p1 := { p with inventory := p.inventory ++
            [{ name := item_name, description := some "A newly found item.", category := "misc" }] }
          ({ gs with players := dictModify gs.players pkey (fun _ => p1) },
           "The player successfully acquired the \x27" ++ item_name ++ "\x27.")
        else
          (gs, "The player already has a \x27" ++ item_name ++ "\x27.")
      else
        if p.inventory.any (fun it => strToLower it.name == strToLower item_name) then
          let p1 := { p with inventory := removeFirstItem p.inventory (strToLower item_name) }
          ({ gs with players := dictModify gs.players pkey (fun _ => p1) },
           "The player has used or discarded the \x27" ++ item_name ++ "\x27.")
        else
          (gs, "The player tried to use a \x27" ++ item_name ++
            "\x27, but they don\x27t have one.")

/-- Resolution of the stat a skill check uses: the lowercased intent stat
when it is truthy and names one of the actor\x27s stats, else dexterity. -/
def resolveStatName (intent : PlayerIntent) (p : PlayerCharacter) : String :=
  match intent.relevant_stat with
  | some s => if s ≠ "" ∧ dictContains p.stats (strToLower s) then strToLower s else "dexterity"
  | none => "dexterity"

/-- The challenge text presented to the player: a function of the action
description, stat, DC and total modifier only. -/
def skillChallengeText (action_description stat_name : String)
    (dc total_modifier : Int) : String :=
  "You prepare to \x27" ++ action_description ++ "\x27. This will require a " ++
    pyTitle stat_name ++ " check against a Difficulty Class (DC) of " ++
    toString dc ++ ". (Your character\x27s total modifier for this is " ++
    fmtSigned total_modifier ++ ")."

/-- `handle_skill_check_intent` — phase 1 of a skill check: pre-roll the d20
in secret, store everything in `pending_action`, switch the phase to
AWAITING_DICE_ROLL_CONFIRMATION and return the challenge text. -/
def handle_skill_check_intent (intent : PlayerIntent) (gs : GameState)
    (p : PlayerCharacter) (g : Rng) : GameState × String × Rng :=
  let dc := pyOrInt intent.required_dc 12
  let stat_name := resolveStatName intent p
  let stat_value := dictGetD p.stats stat_name 10
  let stat_modifier := pyFloorDiv (stat_value - 10) 2
  let effect_modifier := apply_effects p stat_name
  let total_modifier := stat_modifier + effect_modifier
  let roll := g.randint 1 20
  let total_roll := roll.1 + total_modifier
  let gs1 := { gs with
    game_phase := "AWAITING_DICE_ROLL_CONFIRMATION",
    pending_action := some {
      acting_character_id := p.character_id,
      action_text := intent.action_description,
      stat_name := stat_name,
      modifier := total_modifier,
      dc := dc,
      dice_roll := roll.1,
      is_success := decide (total_roll ≥ dc) } }
  (gs1, skillChallengeText intent.action_description stat_name dc total_modifier, roll.2)

/-- Replace the first scene entity whose lowercased name equals `lname`
(Python mutates the first matching object in place). -/
def updateFirstEntity (es : List SceneEntity) (lname : String)
    (f : SceneEntity → SceneEntity) : List SceneEntity :=
  match es with
  | [] => []
  | e :: rest =>
    if strToLower e.name == lname then f e :: rest
    else e :: updateFirstEntity rest lname f

/-- `handle_attack_intent`: case-insensitive target lookup among scene
entities; rejects absent or non-hostile targets; damage is
`strength // 2 + d6` applied to the target with no removal. -/
def handle_attack_intent (intent : PlayerIntent) (gs : GameState)
    (p : PlayerCharacter) (g : Rng) : GameState × String × Rng :=
  match intent.target with
  | none => (gs, "The player wanted to attack, but did not specify a target.", g)
  | some t =>
    if t = "" then (gs, "The player wanted to attack, but did not specify a target.", g)
    else
      match gs.scene_context.entities.find? (fun e => strToLower e.name == strToLower t) with
      | none => (gs, "The player tried to attack \x27" ++ t ++ "\x27, but there is no such target.", g)
      | some e =>
        if ¬ e.is_hostile then
          (gs, "The player attacks \x27" ++ t ++ "\x27, but they are not hostile.", g)
        else
          let roll := g.randint 1 6
          let damage := pyFloorDiv (dictGetD p.stats "strength" 10) 2 + roll.1
          let newHealth := e.health - damage
          let gs1 := { gs with scene_context := { gs.scene_context with
            entities := updateFirstEntity gs.scene_context.entities (strToLower t)
              (fun e0 => { e0 with health := e0.health - damage }) } }
          if newHealth ≤ 0 then
            (gs1, "With a final blow, the player defeats " ++ e.name ++ "!", roll.2)
          else
            (gs1, "The player attacks " ++ e.name ++ ", dealing " ++ toString damage ++
              " damage. It has " ++ toString newHealth ++ " health remaining.", roll.2)

/-- Whether the intent is an attack naming a present hostile target — the
condition under which step 1 of `process_turn_events` initiates combat. -/
def combatInitTarget (intent : PlayerIntent) (gs : GameState) : Bool :=
  match intent.target with
  | none => false
  | some t =>
    (t != "") &&
      (match gs.scene_context.entities.find? (fun e => strToLower e.name == strToLower t) with
       | some e => e.is_hostile
       | none => false)

/-- `any(e.is_hostile and e.health > 0 for e in scene entities)`. -/
def remainingHostiles (gs : GameState) : Bool :=
  gs.scene_context.entities.any (fun e => e.is_hostile ∧ e.health > 0)

/-- `" ".join(filter(None, outcomes))`. -/
def joinOutcomes (l : List String) : String :=
  String.intercalate " " (l.filter (fun s => s ≠ ""))

/-- STEP 3 of `process_turn_events`: dispatch by intent type. -/
def intent_dispatch (intent : PlayerIntent) (gs : GameState) (pkey : String)
    (p : PlayerCharacter) (g : Rng) : GameState × String × Rng :=
  if intent.intent_type = "MANAGE_INVENTORY" then
    let r := handle_inventory_intent intent gs pkey p
    (r.1, r.2, g)
  else if intent.intent_type = "SKILL_CHECK" then
    handle_skill_check_intent intent gs p g
  else if intent.intent_type = "ATTACK" then
    handle_attack_intent intent gs p g
  else
    (gs, "The player takes a moment to interact with their surroundings.", g)

/-- STEP 4 of `process_turn_events`: end combat when no hostile remains. -/
def combat_end_check (st : GameState) (p : PlayerCharacter) (outcome : String) :
    GameState × List String :=
  if st.game_phase = "IN_COMBAT" ∧ ¬ remainingHostiles st then
    ({ st with game_phase := "GAME_IN_PROGRESS", initiative_order := [],
               current_turn_entity_id := some p.character_id },
     [outcome, "\n\n**Combat has ended!**"])
  else (st, [outcome])

/-- `process_turn_events`: the per-turn rules pipeline. -/
def process_turn_events (intent : PlayerIntent) (gs : GameState) (pkey : String)
    (p : PlayerCharacter) (g : Rng) : GameState × String × Bool × Rng :=
  -- STEP 1: an attack on a hostile target while not in combat initiates combat
  if intent.intent_type = "ATTACK" ∧ gs.game_phase ≠ "IN_COMBAT" ∧ combatInitTarget intent gs then
    let r := initiate_combat gs g
    (r.1, "Combat begins! The air crackles with tension as initiative is rolled.", false, r.2)
  else
    -- STEP 2: random danger flag (the d100 is always drawn)
    let dRoll := g.randint 1 100
    let is_danger := decide (dRoll.1 ≤ 5) &&
      (intent.intent_type != "OBSERVE") && (intent.intent_type != "SOCIAL")
    -- STEPS 3-4
    let step3 := intent_dispatch intent gs pkey p dRoll.2
    let ended := combat_end_check step3.1 p step3.2.1
    -- STEP 5: concatenate the outcome text
    (ended.1, joinOutcomes ended.2, is_danger, step3.2.2)

-- ### Task layer (tasks/game_logic.py)

structure GMTurnResponse where
  narrative : String
  image_prompt : String
  updated_summary : String
  updated_scene_context : SceneContext
  updated_quest_log : List Quest
deriving Repr, DecidableEq

structure GMWorldCreationResponse where
  narrative : String
  world_options : List WorldOption
  updated_summary : String
deriving Repr, DecidableEq

structure GMClassCreationResponse where
  narrative : String
  class_options : List ClassOption
deriving Repr, DecidableEq

/-- External collaborators consumed by one task execution: the structured
LLM responses the code would parse, the resolved natural-language choice and
the fresh id the runtime would mint for a newly created character. -/
structure Oracle where
  choice : Nat
  intent : PlayerIntent
  worldResponse : GMWorldCreationResponse
  classResponse : GMClassCreationResponse
  turnResponse : GMTurnResponse
  freshCharId : String
deriving Repr, DecidableEq

/-- `_get_natural_language_choice`: resolves free text to an integer in
`[1, numOptions]`, or `0` when ambiguous or out of range. -/
def nlChoice (o : Oracle) (numOptions : Nat) : Nat :=
  if 1 ≤ o.choice ∧ o.choice ≤ numOptions then o.choice else 0

/-- The outbound result message pushed to the result queue (the fields the
claims observe). -/
structure ResultEvent where
  event_type : String
  narrative : String
  new_game_state : Option GameState := none
deriving Repr, DecidableEq

/-- `_narrate_turn`: the narration step. Building the prompt dereferences
`acting_player.name` and `game_state.world.name`; when either object is
absent the task dies with `AttributeError` before any write (`.error`). -/
def narrate_turn (gs : GameState) (actor : Option PlayerCharacter)
    (o : Oracle) : Except Unit (GameState × ResultEvent) :=
  match actor, gs.world with
  | some _, some _ =>
    let r := o.turnResponse
    let gs1 := { gs with
      story_summary := r.updated_summary,
      scene_context := r.updated_scene_context,
      quest_log := r.updated_quest_log,
      previous_turn_narrative := some r.narrative }
    .ok (gs1, { event_type := "NARRATIVE_UPDATE", narrative := r.narrative,
                new_game_state := some gs1 })
  | _, _ => .error ()

/-- `_handle_start_new_game`: generate world options, move to WORLD_SELECTION. -/
def handle_start_new_game (gs : GameState) (o : Oracle) : GameState × ResultEvent :=
  let r := o.worldResponse
  let gs1 := { gs with game_phase := "WORLD_SELECTION",
                       world_selection_options := some r.world_options,
                       story_summary := r.updated_summary }
  (gs1, { event_type := "WORLD_OPTIONS_PRESENTED", narrative := r.narrative,
          new_game_state := some gs1 })

/-- `_handle_world_selection`: resolve the choice; on a valid index fix the
world, plot and bestiary and move to CHARACTER_CREATION_NUM_PLAYERS. -/
def handle_world_selection (gs : GameState) (o : Oracle) : GameState × ResultEvent :=
  let opts := gs.world_selection_options.getD []
  let numOptions := opts.length
  let c := nlChoice o numOptions
  match opts.get? (c - 1), c with
  | some w, _ + 1 =>
    let gs1 := { gs with
      world := some w,
      main_plot := some w.main_plot,
      bestiary := dictOfList (w.initial_bestiary.map (fun e => (e.name, e))),
      game_phase := "CHARACTER_CREATION_NUM_PLAYERS" }
    (gs1, { event_type := "STATE_UPDATE_PROMPT_USER",
            narrative := "You have chosen the world of " ++ w.name ++ ". " ++
              w.main_plot_hook ++
              "\nHow many adventurers will be embarking on this journey? (1-4)" })
  | _, _ =>
    (gs, { event_type := "ERROR", narrative := "Invalid choice. Please choose a number from 1 to " ++
            toString numOptions ++ "." })

def detailsFormatError : ResultEvent :=
  { event_type := "ERROR",
    narrative := "Invalid format. Please provide: Name, Age, Gender, Backstory." }

/-- `_handle_character_creation`: the three setup sub-phases. Uncaught
exceptions (detailed in the branch comments) abort the task (`.error`); a
`ValueError`/`IndexError` inside the DETAILS branch is caught and surfaces
the format error with whatever state mutations already happened. -/
def handle_character_creation (gs : GameState) (action_text : String)
    (o : Oracle) : Except Unit (GameState × ResultEvent) :=
  let player_num := gs.characters_created + 1
  if gs.game_phase = "CHARACTER_CREATION_NUM_PLAYERS" then
    let c := nlChoice o 4
    if 1 ≤ c ∧ c ≤ 4 then
      match gs.world with
      | none => .error ()   -- the class prompt dereferences world.name
      | some _ =>
        let r := o.classResponse
        let gs1 := { gs with num_players_to_create := (c : Int),
                             game_phase := "CHARACTER_CREATION_CLASSES",
                             class_selection_options := some r.class_options }
        .ok (gs1, { event_type := "CLASS_OPTIONS_PRESENTED",
                    narrative := r.narrative ++ "\nPlease choose a class for Player " ++
                      toString player_num ++ "." })
    else
      .ok (gs, { event_type := "ERROR", narrative := "Please enter a number from 1 to 4." })
  else if gs.game_phase = "CHARACTER_CREATION_CLASSES" then
    let opts := gs.class_selection_options.getD []
    let numOptions := opts.length
    let c := nlChoice o numOptions
    match opts.get? (c - 1), c with
    | some cls, _ + 1 =>
      let gs1 := { gs with pending_character_class := some cls,
                           game_phase := "CHARACTER_CREATION_DETAILS" }
      .ok (gs1, { event_type := "STATE_UPDATE_PROMPT_USER",
                  narrative := "Chosen \x27" ++ cls.name ++ "\x27 for Player " ++
                    toString player_num ++
                    ".\nPlease provide: Name, Age, Gender, Backstory (comma-separated)." })
    | _, _ =>
      .ok (gs, { event_type := "ERROR", narrative := "Invalid choice. Please choose a number from 1 to " ++
              toString numOptions ++ "." })
  else if gs.game_phase = "CHARACTER_CREATION_DETAILS" then
    match pyRsplitComma3 action_text with
    | [name0, age0, gender0, backstory0] =>
      let name := pyStrip name0
      match pyInt? (pyStrip age0) with
      | none => .ok (gs, detailsFormatError)   -- int() ValueError, caught
      | some age =>
        match gs.pending_character_class with
        | none => .error ()   -- pending_class.name: AttributeError, not caught
        | some pc =>
          let new_char : PlayerCharacter := {
            character_id := o.freshCharId,
            name := name, age := age, gender := pyStrip gender0,
            backstory := pyStrip backstory0,
            character_class := pc.name,
            stats := pc.base_stats, skills := pc.initial_abilities,
            currency := pc.starting_currency,
            inventory := [
              { name := pc.starting_weapon, description := some "A basic starting weapon.",
                category := "weapon" },
              { name := pc.starting_object, description := some "A curious starting object.",
                category := "misc" } ] }
          let gs1 := { gs with
            players := dictInsert gs.players new_char.character_id new_char,
            characters_created := gs.characters_created + 1,
            pending_character_class := none }
          if gs1.characters_created < gs1.num_players_to_create then
            match gs1.class_selection_options with
            | none => .error ()   -- iterating None: TypeError, not caught
            | some _ =>
              let gs2 := { gs1 with game_phase := "CHARACTER_CREATION_CLASSES" }
              .ok (gs2, { event_type := "CLASS_OPTIONS_PRESENTED",
                          narrative := "Character \x27" ++ name ++ "\x27 created! Now, create Player " ++
                            toString (gs1.characters_created + 1) ++ "." })
          else
            match gs1.players.head? with
            | none => .error ()   -- unreachable: a character was just inserted
            | some kv =>
              let gs2 := { gs1 with game_phase := "GAME_IN_PROGRESS",
                                    current_turn_entity_id := some kv.1 }
              match gs2.world, gs2.main_plot with
              | some _, some mp =>
                match mp.key_milestones.getD ["an unexpected event"] with
                | [] =>
                  -- IndexError on milestones[0] is caught as a format error,
                  -- but the mutations above survive on the shared object
                  .ok (gs2, detailsFormatError)
                | _ :: _ =>
                  let r := o.turnResponse
                  let gs3 := { gs2 with story_summary := r.updated_summary,
                                        scene_context := r.updated_scene_context,
                                        quest_log := r.updated_quest_log }
                  .ok (gs3, { event_type := "NARRATIVE_UPDATE", narrative := r.narrative,
                              new_game_state := some gs3 })
              | _, _ => .error ()   -- world.name / main_plot.get: AttributeError
    | _ => .ok (gs, detailsFormatError)   -- not 4 fields: ValueError caught
  else
    .ok (gs, { event_type := "ERROR", narrative := "Unknown character creation state." })

/-- The reveal text on a successful skill check. -/
def revealSuccessText (pending : PendingAction) : String :=
  "The dice roll is a " ++ toString pending.dice_roll ++ "! With your modifier of " ++
    fmtSigned pending.modifier ++ ", your total is " ++
    toString (pending.dice_roll + pending.modifier) ++
    ". A success against the DC of " ++ toString pending.dc ++ "!"

/-- The reveal text on a failed skill check. -/
def revealFailureText (pending : PendingAction) (damage : Int) : String :=
  "The dice roll is a " ++ toString pending.dice_roll ++ ". With your modifier of " ++
    fmtSigned pending.modifier ++ ", your total is " ++
    toString (pending.dice_roll + pending.modifier) ++
    ". Unfortunately, that\x27s not enough to beat the DC of " ++ toString pending.dc ++
    ". You fail and take " ++ toString damage ++ " damage."

/-- Result of phase-2 resolution: the updated state, the outbound event, the
factual outcome string handed to the narrator, and the remaining stream. -/
structure DiceConfirmOut where
  state : GameState
  event : ResultEvent
  outcome : String
  rng : Rng
deriving Repr, DecidableEq

/-- `_handle_dice_roll_confirmation` — phase 2 of a skill check: reveal the
pre-rolled outcome stored in `pending_action`. On failure a fresh d4 of
damage is applied to the acting character (crashing when that character is
missing); `pending_action` is cleared and the phase returns to
GAME_IN_PROGRESS before narration. -/
def handle_dice_roll_confirmation (gs : GameState) (o : Oracle) (g : Rng) :
    Except Unit DiceConfirmOut :=
  match gs.pending_action with
  | none =>
    .ok { state := gs,
          event := { event_type := "ERROR",
                     narrative := "No skill check was pending for confirmation." },
          outcome := "", rng := g }
  | some pending =>
    let actor := dictGet gs.players pending.acting_character_id
    if pending.is_success then
      let outcome := revealSuccessText pending
      let gs1 := { gs with pending_action := none, game_phase := "GAME_IN_PROGRESS" }
      (narrate_turn gs1 actor o).map
        (fun r => { state := r.1, event := r.2, outcome := outcome, rng := g })
    else
      match actor with
      | none => .error ()   -- acting_player.health -= damage: AttributeError
      | some a =>
        let roll := g.randint 1 4
        let outcome := revealFailureText pending roll.1
        let gs1 := { gs with players := (dictModify gs.players pending.acting_character_id
          (fun pl => { pl with health := pl.health - roll.1 })) }
        let gs2 := { gs1 with pending_action := none, game_phase := "GAME_IN_PROGRESS" }
        (narrate_turn gs2 (some a) o).map
          (fun r => { state := r.1, event := r.2, outcome := outcome, rng := roll.2 })

/-- `_handle_standard_turn`: classify the intent, run the rules pipeline,
then either pause on a pending dice confirmation or narrate. -/
def handle_standard_turn (gs : GameState) (acting_char_id : String)
    (o : Oracle) (g : Rng) : Except Unit (GameState × ResultEvent × Rng) :=
  match dictGet gs.players acting_char_id with
  | none => .ok (gs, { event_type := "ERROR", narrative := "Acting player not found." }, g)
  | some actor =>
    let r := process_turn_events o.intent gs acting_char_id actor g
    if r.1.game_phase = "AWAITING_DICE_ROLL_CONFIRMATION" then
      .ok (r.1, { event_type := "DICE_ROLL_REQUESTED", narrative := r.2.1,
                  new_game_state := some r.1 }, r.2.2.2)
    else
      (narrate_turn r.1 (some actor) o).map (fun s => (s.1, s.2, r.2.2.2))

/-- `_advance_turn_in_combat`: move to the next id in the initiative order,
wrapping circularly; a missing current id falls back to the first entry.
Returns the state and whether the next actor is an NPC. -/
def advance_turn_in_combat (gs : GameState) : GameState × Bool :=
  match gs.current_turn_entity_id.bind
      (fun c => gs.initiative_order.findIdx? (fun x => x == c)) with
  | some i =>
    let nxt := gs.initiative_order.getD ((i + 1) % gs.initiative_order.length) ""
    ({ gs with current_turn_entity_id := some nxt }, ! dictContains gs.players nxt)
  | none =>
    match gs.initiative_order with
    | [] => (gs, false)
    | first :: _ =>
      ({ gs with current_turn_entity_id := some first }, ! dictContains gs.players first)

/-- `_handle_npc_turn`. Constructing `PlayerCharacter(**npc_entity.model_dump())`
always raises a validation error — `age`, `gender`, `backstory` and
`character_class` are required fields a SceneEntity dump lacks — so the broad
`except` is always taken and `process_turn_events` is never reached from an
NPC turn: the state comes back unchanged with a fallback outcome line. -/
def handle_npc_turn (gs : GameState) (npcId : Option String) : GameState × String :=
  let npc := npcId.bind
    (fun nid => gs.scene_context.entities.find? (fun e => e.instance_id == nid))
  match npc with
  | none => (gs, (npcId.getD "None") ++ " cannot act.")
  | some e =>
    if e.health ≤ 0 then (gs, e.name ++ " cannot act.")
    else if gs.players.all (fun kv => kv.2.health ≤ 0) then
      (gs, "There are no conscious players to target.")
    else (gs, e.name ++ " hesitates, unsure of what to do.")

/-- `process_npc_turn_task`: one NPC-turn task execution, acting on the
state freshly fetched from the session store. Returns the state written back
and whether another NPC-turn task was re-enqueued. When no hostile remains
the phase is flipped to GAME_IN_PROGRESS (the initiative order is NOT
cleared on this path); otherwise the turn advances and the task re-enqueues
itself whenever the next actor is not a player. -/
def process_npc_turn_task (gs : GameState) : GameState × Bool :=
  let r := handle_npc_turn gs gs.current_turn_entity_id
  if remainingHostiles r.1 then
    advance_turn_in_combat r.1
  else
    ({ r.1 with game_phase := "GAME_IN_PROGRESS" }, false)

/-- The state persisted after `n` consecutive NPC-turn tasks. -/
def npcChainState (gs : GameState) : Nat → GameState
  | 0 => gs
  | n + 1 => (process_npc_turn_task (npcChainState gs n)).1

structure ClientAction where
  action_type : Option String := none
  payload : Option GameState := none
deriving Repr, DecidableEq

/-- The queued task message for a player action (section 6 of the spec):
the snapshot of the game state travels inside the payload. -/
structure TaskPayload where
  session_id : String
  client_id : String
  game_state : GameState
  client_action : Option ClientAction := none
  language : String := "en"
deriving Repr, DecidableEq

/-- `payload.get("client_action", \x7b\x7d).get("action_type", "observe")`. -/
def actionTextOf (p : TaskPayload) : String :=
  match p.client_action with
  | some ca => ca.action_type.getD "observe"
  | none => "observe"

def forcedPayloadOf (p : TaskPayload) : Option GameState :=
  match p.client_action with
  | some ca => ca.payload
  | none => none

/-- Observable effects of one `process_game_action_task` execution: the
sequence of states persisted to the session store, the result events
published, whether an NPC-turn task was enqueued, and the returned status. -/
structure TaskOutput where
  writes : List GameState
  published : List ResultEvent
  npcEnqueued : Bool
  status : String
deriving Repr, DecidableEq

/-- Steps 3-5 of `process_game_action_task` once a phase handler produced a
final state and a result payload: persist, publish (adding the new state to
the event when absent), then run the post-turn scheduling logic. -/
def postTurn (initial_phase : String) (fin : GameState) (ev : ResultEvent) :
    TaskOutput :=
  let ev1 := if ev.new_game_state.isNone then { ev with new_game_state := some fin } else ev
  if fin.game_phase = "IN_COMBAT" then
    let adv :=
      if initial_phase = "IN_COMBAT" then advance_turn_in_combat fin
      else
        (fin, match fin.current_turn_entity_id with
              | some c => ! dictContains fin.players c
              | none => true)
    if adv.2 then
      -- the advanced state is persisted only when an NPC task is enqueued
      { writes := [fin, adv.1], published := [ev1], npcEnqueued := true, status := "success" }
    else
      { writes := [fin], published := [ev1], npcEnqueued := false, status := "success" }
  else if fin.game_phase = "GAME_IN_PROGRESS" then
    let player_ids := fin.players.map (fun kv => kv.1)
    match fin.current_turn_entity_id with
    | some a =>
      if player_ids.length > 1 ∧ a ∈ player_ids then
        let i := (player_ids.findIdx? (fun x => x == a)).getD 0
        let nxt := player_ids.getD ((i + 1) % player_ids.length) ""
        let fin2 := { fin with current_turn_entity_id := some nxt }
        { writes := [fin, fin2], published := [ev1], npcEnqueued := false, status := "success" }
      else
        { writes := [fin], published := [ev1], npcEnqueued := false, status := "success" }
    | none =>
      { writes := [fin], published := [ev1], npcEnqueued := false, status := "success" }
  else
    { writes := [fin], published := [ev1], npcEnqueued := false, status := "success" }

/-- The GAME_IN_PROGRESS fallback when the current turn id is falsy or not a
player: default to the first player (error-return when there is none). -/
def gipFallback (gs : GameState) (o : Oracle) (g : Rng) :
    Except Unit (Option (GameState × ResultEvent × Rng)) :=
  match gs.players.head? with
  | none => .ok none
  | some kv =>
    if kv.1 = "" then .ok none
    else
      let gs2 := { gs with current_turn_entity_id := some kv.1 }
      (handle_standard_turn gs2 kv.1 o g).map some

/-- The phase-keyed routing table of `process_game_action_task`: route the
snapshot to the handler matching its `game_phase`. `.ok none` stands for the
early error returns that neither persist nor publish. -/
def dispatchBranch (gs : GameState) (action_text : String) (o : Oracle) (g : Rng) :
    Except Unit (Option (GameState × ResultEvent × Rng)) :=
  if gs.game_phase = "NEW_GAME" then
    let r := handle_start_new_game gs o
    .ok (some (r.1, r.2, g))
  else if gs.game_phase = "WORLD_SELECTION" then
    let r := handle_world_selection gs o
    .ok (some (r.1, r.2, g))
  else if strStartsWith gs.game_phase "CHARACTER_CREATION" then
    (handle_character_creation gs action_text o).map (fun r => some (r.1, r.2, g))
  else if gs.game_phase = "AWAITING_DICE_ROLL_CONFIRMATION" then
    (handle_dice_roll_confirmation gs o g).map (fun r => some (r.state, r.event, r.rng))
  else if gs.game_phase = "IN_COMBAT" then
    match gs.current_turn_entity_id with
    | some cid =>
      if cid ≠ "" ∧ dictContains gs.players cid then
        (handle_standard_turn gs cid o g).map some
      else .ok none
    | none => .ok none
  else if gs.game_phase = "GAME_IN_PROGRESS" then
    match gs.current_turn_entity_id with
    | some cid =>
      if cid ≠ "" ∧ dictContains gs.players cid then
        (handle_standard_turn gs cid o g).map some
      else gipFallback gs o g
    | none => gipFallback gs o g
  else
    .ok (some (gs, { event_type := "ERROR",
                     narrative := "Unhandled state \x27" ++ gs.game_phase ++ "\x27." }, g))

/-- `process_game_action_task`: the main dispatcher. It validates the
caller-supplied snapshot `payload["game_state"]` — the session store is
never read during dispatch — routes on that snapshot\x27s `game_phase`, then
persists, publishes and schedules. -/
def process_game_action_task (p : TaskPayload) (o : Oracle) (g : Rng) :
    Except Unit TaskOutput :=
  let gs := p.game_state
  let action_text := actionTextOf p
  if action_text = "FORCE_GAME_STATE" then
    match forcedPayloadOf p with
    | some fs =>
      let fin := { fs with session_id := p.session_id }
      .ok { writes := [fin],
            published := [{ event_type := "STATE_FORCED",
                            narrative := "State forced for testing.",
                            new_game_state := some fin }],
            npcEnqueued := false, status := "success" }
    | none => .ok { writes := [], published := [], npcEnqueued := false, status := "error" }
  else
    match dispatchBranch gs action_text o g with
    | .error e => .error e
    | .ok none => .ok { writes := [], published := [], npcEnqueued := false, status := "error" }
    | .ok (some r) => .ok (postTurn gs.game_phase r.1 r.2.1)

-- ### Supporting lemmas

theorem pyFloorDiv_two_spec (a : Int) :
    2 * pyFloorDiv a 2 ≤ a ∧ a < 2 * pyFloorDiv a 2 + 2 := by
  unfold pyFloorDiv
  rw [Int.fdiv_eq_ediv _ (by norm_num)]
  have h1 := Int.emod_nonneg a (by norm_num : (2 : Int) ≠ 0)
  have h2 := Int.emod_lt_of_pos a (by norm_num : (0 : Int) < 2)
  have h3 := Int.ediv_add_emod a 2
  omega

theorem sortByRollDesc_cons (a : String × Int) (as : List (String × Int)) :
    sortByRollDesc (a :: as) = insertDesc a (sortByRollDesc as) := rfl

theorem insertDesc_perm (x : String × Int) (l : List (String × Int)) :
    List.Perm (insertDesc x l) (x :: l) := by
  induction l with
  | nil => simp [insertDesc]
  | cons y ys ih =>
    simp only [insertDesc]
    by_cases h : y.2 > x.2
    · rw [if_pos h]
      exact (ih.cons y).trans (List.Perm.swap x y ys)
    · rw [if_neg h]

theorem sortByRollDesc_perm (l : List (String × Int)) :
    List.Perm (sortByRollDesc l) l := by
  induction l with
  | nil => simp [sortByRollDesc]
  | cons a as ih =>
    rw [sortByRollDesc_cons]
    exact (insertDesc_perm a _).trans (ih.cons a)

theorem insertDesc_pairwise (x : String × Int) (l : List (String × Int))
    (h : l.Pairwise (fun a b => b.2 ≤ a.2)) :
    (insertDesc x l).Pairwise (fun a b => b.2 ≤ a.2) := by
  induction l with
  | nil => simp [insertDesc]
  | cons y ys ih =>
    rcases List.pairwise_cons.mp h with ⟨hy, hys⟩
    simp only [insertDesc]
    by_cases hgt : y.2 > x.2
    · rw [if_pos hgt]
      refine List.pairwise_cons.mpr ⟨?_, ih hys⟩
      intro z hz
      rcases List.mem_cons.mp ((insertDesc_perm x ys).mem_iff.mp hz) with hzx | hzys
      · rw [hzx]
        exact le_of_lt hgt
      · exact hy z hzys
    · rw [if_neg hgt]
      push_neg at hgt
      refine List.pairwise_cons.mpr ⟨?_, h⟩
      intro z hz
      rcases List.mem_cons.mp hz with hzy | hzys
      · rw [hzy]
        exact hgt
      · exact le_trans (hy z hzys) hgt

theorem sortByRollDesc_pairwise (l : List (String × Int)) :
    (sortByRollDesc l).Pairwise (fun a b => b.2 ≤ a.2) := by
  induction l with
  | nil => simp [sortByRollDesc]
  | cons a as ih =>
    rw [sortByRollDesc_cons]
    exact insertDesc_pairwise a _ ih

theorem insertDesc_filter_key (x : String × Int) (l : List (String × Int)) (k : Int) :
    (insertDesc x l).filter (fun y => y.2 == k) =
      if x.2 == k then x :: l.filter (fun y => y.2 == k)
      else l.filter (fun y => y.2 == k) := by
  induction l with
  | nil => by_cases hx : x.2 = k <;> simp [insertDesc, beq_iff_eq, hx]
  | cons y ys ih =>
    simp only [insertDesc]
    by_cases hgt : y.2 > x.2
    · rw [if_pos hgt, List.filter_cons, List.filter_cons, ih]
      by_cases hx : x.2 = k
      · have hy : ¬ y.2 = k := by omega
        simp [beq_iff_eq, hx, hy]
      · simp [beq_iff_eq, hx]
    · rw [if_neg hgt]
      by_cases hx : x.2 = k <;> by_cases hyk : y.2 = k <;>
        simp [beq_iff_eq, hx, hyk, List.filter_cons]

theorem sortByRollDesc_stable (l : List (String × Int)) (k : Int) :
    (sortByRollDesc l).filter (fun y => y.2 == k) = l.filter (fun y => y.2 == k) := by
  induction l with
  | nil => simp [sortByRollDesc]
  | cons a as ih =>
    rw [sortByRollDesc_cons, insertDesc_filter_key, List.filter_cons]
    by_cases ha : a.2 = k <;> simp [beq_iff_eq, ha, ih]

theorem rollInitiative_ids (cs : List (String × Int)) (g : Rng) :
    ((rollInitiative cs g).1).map (fun p => p.1) =
      (cs.map (fun p => p.1)).filter (fun s => s ≠ "") := by
  induction cs generalizing g with
  | nil => simp [rollInitiative]
  | cons c rest ih =>
    simp only [rollInitiative, List.map_cons, List.filter_cons]
    by_cases hc : c.1 = ""
    · simp [hc, ih]
    · simp [hc, ih]

/-- Each recorded initiative entry is a fresh d20 plus the dexterity modifier
of the corresponding combatant, in input order (combatants with a falsy id
are rolled for and dropped). -/
theorem rollInitiative_spec (cs : List (String × Int)) (g : Rng) :
    ∃ ds : List Int, ds.length = cs.length ∧ (∀ d ∈ ds, 1 ≤ d ∧ d ≤ 20) ∧
      (rollInitiative cs g).1 =
        ((cs.zip ds).filter (fun p => p.1.1 ≠ "")).map
          (fun p => (p.1.1, p.2 + pyFloorDiv (p.1.2 - 10) 2)) := by
  induction cs generalizing g with
  | nil => exact ⟨[], by simp [rollInitiative]⟩
  | cons c rest ih =>
    obtain ⟨ds, hlen, hmem, heq⟩ := ih (g.randint 1 20).2
    refine ⟨(g.randint 1 20).1 :: ds, by simp [hlen], ?_, ?_⟩
    · intro d hd
      rcases List.mem_cons.mp hd with hdr | hds
      · rw [hdr]
        exact Rng.randint_mem g 1 20 (by norm_num)
      · exact hmem d hds
    · show (rollInitiative (c :: rest) g).1 = _
      simp only [rollInitiative, List.zip_cons_cons, List.filter_cons]
      by_cases hc : c.1 = ""
      · simp [hc, heq, List.zip]
      · simp [hc, heq, List.zip]

theorem apply_effects_eq_sum (p : PlayerCharacter) (s : String) (hs : s ≠ "") :
    apply_effects p s =
      (p.conditions.map
        (fun eff => dictGetD eff.modifiers s 0 + dictGetD eff.modifiers "all" 0)).sum := by
  unfold apply_effects
  have loop : ∀ (l : List Effect) (acc : Int),
      l.foldl (fun total eff =>
        let total :=
          if s ≠ "" ∧ dictGetD eff.modifiers s 0 ≠ 0 then
            total + dictGetD eff.modifiers s 0
          else total
        if dictGetD eff.modifiers "all" 0 ≠ 0 then
          total + dictGetD eff.modifiers "all" 0
        else total) acc =
      acc + (l.map (fun eff => dictGetD eff.modifiers s 0 + dictGetD eff.modifiers "all" 0)).sum := by
    intro l
    induction l with
    | nil => intro acc; simp
    | cons e es ihl =>
      intro acc
      simp only [List.foldl_cons, List.map_cons, List.sum_cons, ihl]
      by_cases h1 : dictGetD e.modifiers s 0 = 0 <;>
        by_cases h2 : dictGetD e.modifiers "all" 0 = 0 <;>
          simp [hs, h1, h2] <;> omega
  simpa using loop p.conditions 0

-- ### Concrete fixtures used by witnesses and counterexamples

def fxWorld : WorldOption :=
  { name := "Arden", description := "a quiet vale", main_plot_hook := "hook",
    main_plot := { synopsis := some "syn", key_milestones := some ["m1"] } }

def fxAlice : PlayerCharacter :=
  { character_id := "alice", name := "Alice", age := 30, gender := "f",
    backstory := "story", character_class := "Rogue",
    stats := [("dexterity", 14), ("strength", 12)] }

def fxBob : PlayerCharacter :=
  { character_id := "bob", name := "Bob", age := 28, gender := "m",
    backstory := "story", character_class := "Mage", stats := [("dexterity", 8)] }

def fxGoblin : SceneEntity :=
  { instance_id := "gob1", name := "Goblin", description := "a goblin",
    health := 7, stats := [("dexterity", 12)], is_hostile := true }

def fxOracle : Oracle :=
  { choice := 1,
    intent := { intent_type := "OBSERVE", action_description := "look" },
    worldResponse := { narrative := "n", world_options := [fxWorld], updated_summary := "s" },
    classResponse := { narrative := "n", class_options := [] },
    turnResponse := { narrative := "turn", image_prompt := "img", updated_summary := "sum",
                      updated_scene_context := { entities := [fxGoblin] },
                      updated_quest_log := [] },
    freshCharId := "kara1" }

-- ### Claim C6 — initiate_combat

theorem combatantsOf_set_phase (gs : GameState) (ph : String) :
    combatantsOf { gs with game_phase := ph } = combatantsOf gs := rfl

theorem initiate_combat_fields (gs : GameState) (g : Rng) :
    (initiate_combat gs g).1.game_phase = "IN_COMBAT" ∧
    (initiate_combat gs g).1.initiative_order =
      (sortByRollDesc (rollInitiative (combatantsOf gs) g).1).map (fun q => q.1) ∧
    ((initiate_combat gs g).1.initiative_order ≠ [] →
      (initiate_combat gs g).1.current_turn_entity_id =
        (initiate_combat gs g).1.initiative_order.head?) ∧
    (initiate_combat gs g).1.pending_action = gs.pending_action ∧
    (initiate_combat gs g).1.players = gs.players ∧
    (initiate_combat gs g).1.scene_context = gs.scene_context := by
  simp only [initiate_combat, combatantsOf_set_phase]
  cases horder : (sortByRollDesc (rollInitiative (combatantsOf gs) g).1).map (fun p => p.1) with
  | nil => simp [horder]
  | cons t rest => simp [horder]

/-- C6: `initiate_combat` takes as combatants all players plus every hostile
scene entity regardless of health, rolls `d20 + floor((dexterity-10)/2)` for
each, sorts descending by roll as a stable sort (ties keep the original
order: players in insertion order first, then scene entities in list order —
in particular rolls `[A 15, B 20, C 15]` sort to `[B, A, C]`), sets
`initiative_order` to that sequence, `current_turn_entity_id` to its first
entry, and the phase to IN_COMBAT. -/
theorem claim_C6 (gs : GameState) (g : Rng) :
    (initiate_combat gs g).1.game_phase = "IN_COMBAT" ∧
    (initiate_combat gs g).1.initiative_order =
      (sortByRollDesc (rollInitiative (combatantsOf gs) g).1).map (fun q => q.1) ∧
    (∃ ds : List Int, ds.length = (combatantsOf gs).length ∧
      (∀ d ∈ ds, 1 ≤ d ∧ d ≤ 20) ∧
      (rollInitiative (combatantsOf gs) g).1 =
        (((combatantsOf gs).zip ds).filter (fun q => q.1.1 ≠ "")).map
          (fun q => (q.1.1, q.2 + pyFloorDiv (q.1.2 - 10) 2))) ∧
    (sortByRollDesc (rollInitiative (combatantsOf gs) g).1).Pairwise
      (fun a b => b.2 ≤ a.2) ∧
    (∀ k : Int,
      (sortByRollDesc (rollInitiative (combatantsOf gs) g).1).filter (fun q => q.2 == k) =
        ((rollInitiative (combatantsOf gs) g).1).filter (fun q => q.2 == k)) ∧
    sortByRollDesc [("A", 15), ("B", 20), ("C", 15)] = [("B", 20), ("A", 15), ("C", 15)] ∧
    (∀ e ∈ gs.scene_context.entities, e.is_hostile = true → e.instance_id ≠ "" →
      e.instance_id ∈ (initiate_combat gs g).1.initiative_order) ∧
    (∀ kv ∈ gs.players, kv.2.character_id ≠ "" →
      kv.2.character_id ∈ (initiate_combat gs g).1.initiative_order) ∧
    ((initiate_combat gs g).1.initiative_order ≠ [] →
      (initiate_combat gs g).1.current_turn_entity_id =
        (initiate_combat gs g).1.initiative_order.head?) := by
  obtain ⟨hphase, hio, hturn, -, -, -⟩ := initiate_combat_fields gs g
  have hperm : List.Perm
      ((sortByRollDesc (rollInitiative (combatantsOf gs) g).1).map (fun q => q.1))
      (((rollInitiative (combatantsOf gs) g).1).map (fun q => q.1)) :=
    (sortByRollDesc_perm _).map _
  have hmem : ∀ s : String, s ≠ "" → s ∈ (combatantsOf gs).map (fun q => q.1) →
      s ∈ (initiate_combat gs g).1.initiative_order := by
    intro s hs hsmem
    rw [hio]
    apply hperm.mem_iff.mpr
    rw [rollInitiative_ids]
    simp only [List.mem_filter]
    exact ⟨hsmem, by simpa using hs⟩
  refine ⟨hphase, hio, rollInitiative_spec _ _, sortByRollDesc_pairwise _,
    fun k => sortByRollDesc_stable _ k, by decide, ?_, ?_, hturn⟩
  · intro e he hhost hne
    apply hmem _ hne
    unfold combatantsOf
    rw [List.map_append]
    apply List.mem_append_right
    simp only [List.map_map, List.mem_map]
    refine ⟨e, List.mem_filter.mpr ⟨he, by simpa using hhost⟩, rfl⟩
  · intro kv hkv hne
    apply hmem _ hne
    unfold combatantsOf
    rw [List.map_append]
    apply List.mem_append_left
    simp only [List.map_map, List.mem_map]
    exact ⟨kv, hkv, rfl⟩

def fxCbA : PlayerCharacter :=
  { character_id := "A", name := "A", age := 1, gender := "x",
    backstory := "", character_class := "c" }

def fxCbB : PlayerCharacter :=
  { character_id := "B", name := "B", age := 1, gender := "x",
    backstory := "", character_class := "c" }

def fxCbC : SceneEntity :=
  { instance_id := "C", name := "C", description := "", health := 5, is_hostile := true }

def fxC6State : GameState :=
  { session_id := "s", game_id := "g", game_phase := "GAME_IN_PROGRESS",
    players := [("A", fxCbA), ("B", fxCbB)],
    scene_context := { entities := [fxCbC] } }

theorem claim_C6_witness :
    (initiate_combat fxC6State ⟨[15, 20, 15]⟩).1.game_phase = "IN_COMBAT" ∧
    (initiate_combat fxC6State ⟨[15, 20, 15]⟩).1.initiative_order = ["B", "A", "C"] ∧
    (initiate_combat fxC6State ⟨[15, 20, 15]⟩).1.current_turn_entity_id = some "B" := by
  have h := claim_C6 fxC6State ⟨[15, 20, 15]⟩
  refine ⟨h.1, by decide, ?_⟩
  have ht := h.2.2.2.2.2.2.2.2 (by decide)
  rw [ht]
  decide

-- ### Claim C4 — skill check phase 1

theorem strToLower_ne_empty (s : String) (h : s ≠ "") : strToLower s ≠ "" := by
  intro hc
  apply h
  have h3 : s.data.map Char.toLower = [] := congrArg String.data hc
  have h4 : s.data = [] := by simpa using h3
  cases s with
  | mk d =>
    have hd : d = [] := by simpa using h4
    rw [hd]

theorem resolveStatName_ne_empty (intent : PlayerIntent) (p : PlayerCharacter) :
    resolveStatName intent p ≠ "" := by
  unfold resolveStatName
  cases hs : intent.relevant_stat with
  | none => simp
  | some s =>
    show (if s ≠ "" ∧ dictContains p.stats (strToLower s) = true then strToLower s
      else "dexterity") ≠ ""
    by_cases hc : s ≠ "" ∧ dictContains p.stats (strToLower s) = true
    · rw [if_pos hc]
      exact strToLower_ne_empty s hc.1
    · rw [if_neg hc]
      simp

def fxSkillIntentDC0 : PlayerIntent :=
  { intent_type := "SKILL_CHECK", action_description := "sneak",
    relevant_stat := some "dexterity", required_dc := some 0 }

/-- C4 counterexample: the claim reads the stored DC off the intent whenever
the intent carries one, but with `required_dc = 0` the code stores the
default 12 (Python `or` treats a zero DC as absent), not the intent value 0. -/
theorem claim_C4_counterexample :
    fxSkillIntentDC0.required_dc = some 0 ∧
    ((handle_skill_check_intent fxSkillIntentDC0 fxC6State fxAlice ⟨[20]⟩).1.pending_action.map
      (fun pa => pa.dc)) = some 12 ∧
    ((handle_skill_check_intent fxSkillIntentDC0 fxC6State fxAlice ⟨[20]⟩).1.pending_action.map
      (fun pa => pa.dc)) ≠ some 0 :=
  ⟨rfl, rfl, by decide⟩

/-- C4 (amended): skill-check phase 1 resolves the stat from the intent
(defaulting to dexterity when absent or unknown), computes the stat modifier
as `floor((value-10)/2)` (negative below 10), adds the sum over active
Effects of the stat-keyed and `"all"`-keyed modifiers, takes the DC from the
intent **when it is present and nonzero** and 12 otherwise (amendment: a
zero DC in the intent falls back to 12), rolls a d20 in `[1,20]`, fixes
`is_success = (roll + modifier >= dc)`, stores everything in a
PendingAction, switches the phase to AWAITING_DICE_ROLL_CONFIRMATION, and
returns a challenge text that is a function of the action, stat, DC and
modifier only — identical for every dice stream, so it reveals neither the
roll nor the outcome. -/
theorem claim_C4_amended (intent : PlayerIntent) (gs : GameState)
    (p : PlayerCharacter) (g g2 : Rng) :
    (handle_skill_check_intent intent gs p g).1.game_phase =
      "AWAITING_DICE_ROLL_CONFIRMATION" ∧
    (∃ pa : PendingAction,
      (handle_skill_check_intent intent gs p g).1.pending_action = some pa ∧
      pa.acting_character_id = p.character_id ∧
      pa.action_text = intent.action_description ∧
      pa.stat_name = resolveStatName intent p ∧
      pa.modifier =
        pyFloorDiv (dictGetD p.stats (resolveStatName intent p) 10 - 10) 2 +
          (p.conditions.map (fun eff =>
            dictGetD eff.modifiers (resolveStatName intent p) 0 +
              dictGetD eff.modifiers "all" 0)).sum ∧
      pa.dc = pyOrInt intent.required_dc 12 ∧
      1 ≤ pa.dice_roll ∧ pa.dice_roll ≤ 20 ∧
      pa.is_success = decide (pa.dice_roll + pa.modifier ≥ pa.dc)) ∧
    (2 * pyFloorDiv (dictGetD p.stats (resolveStatName intent p) 10 - 10) 2 ≤
        dictGetD p.stats (resolveStatName intent p) 10 - 10 ∧
      dictGetD p.stats (resolveStatName intent p) 10 - 10 <
        2 * pyFloorDiv (dictGetD p.stats (resolveStatName intent p) 10 - 10) 2 + 2) ∧
    (dictGetD p.stats (resolveStatName intent p) 10 < 10 →
      pyFloorDiv (dictGetD p.stats (resolveStatName intent p) 10 - 10) 2 < 0) ∧
    (intent.relevant_stat = none → resolveStatName intent p = "dexterity") ∧
    (∀ s, intent.relevant_stat = some s → dictContains p.stats (strToLower s) = false →
      resolveStatName intent p = "dexterity") ∧
    (handle_skill_check_intent intent gs p g).2.1 =
      (handle_skill_check_intent intent gs p g2).2.1 ∧
    (handle_skill_check_intent intent gs p g).2.1 =
      skillChallengeText intent.action_description (resolveStatName intent p)
        (pyOrInt intent.required_dc 12)
        (pyFloorDiv (dictGetD p.stats (resolveStatName intent p) 10 - 10) 2 +
          apply_effects p (resolveStatName intent p)) := by
  have hsn := resolveStatName_ne_empty intent p
  have hem := apply_effects_eq_sum p (resolveStatName intent p) hsn
  have hroll := Rng.randint_mem g 1 20 (by norm_num)
  have hfd := pyFloorDiv_two_spec (dictGetD p.stats (resolveStatName intent p) 10 - 10)
  refine ⟨rfl, ⟨_, rfl, rfl, rfl, rfl, by rw [hem], rfl, hroll.1, hroll.2, rfl⟩,
    hfd, ?_, ?_, ?_, rfl, rfl⟩
  · intro hv
    omega
  · intro hnone
    unfold resolveStatName
    rw [hnone]
  · intro s hs hcont
    unfold resolveStatName
    rw [hs]
    show (if s ≠ "" ∧ dictContains p.stats (strToLower s) = true then strToLower s
      else "dexterity") = "dexterity"
    have hnc : ¬ (s ≠ "" ∧ dictContains p.stats (strToLower s) = true) := by
      intro hc
      rw [hcont] at hc
      exact Bool.false_ne_true hc.2
    rw [if_neg hnc]

theorem claim_C4_witness :
    (handle_skill_check_intent fxSkillIntentDC0 fxC6State fxAlice ⟨[20]⟩).1.game_phase =
      "AWAITING_DICE_ROLL_CONFIRMATION" ∧
    ((handle_skill_check_intent fxSkillIntentDC0 fxC6State fxAlice ⟨[20]⟩).1.pending_action.map
      (fun pa => (pa.dice_roll, pa.modifier, pa.is_success))) = some (20, 2, true) := by
  have h := claim_C4_amended fxSkillIntentDC0 fxC6State fxAlice ⟨[20]⟩ ⟨[7]⟩
  exact ⟨h.1, rfl⟩

-- ### Claim C5 — skill check phase 2

theorem narrate_turn_ok (gs : GameState) (a : PlayerCharacter) (o : Oracle)
    (w : WorldOption) (hw : gs.world = some w) :
    narrate_turn gs (some a) o = .ok
      ({ gs with story_summary := o.turnResponse.updated_summary,
                 scene_context := o.turnResponse.updated_scene_context,
                 quest_log := o.turnResponse.updated_quest_log,
                 previous_turn_narrative := some o.turnResponse.narrative },
       { event_type := "NARRATIVE_UPDATE", narrative := o.turnResponse.narrative,
         new_game_state := some { gs with
           story_summary := o.turnResponse.updated_summary,
           scene_context := o.turnResponse.updated_scene_context,
           quest_log := o.turnResponse.updated_quest_log,
           previous_turn_narrative := some o.turnResponse.narrative } }) := by
  simp only [narrate_turn, hw]

def fxPendingOk : PendingAction :=
  { acting_character_id := "alice", action_text := "sneak",
    stat_name := "dexterity", modifier := 2, dc := 12, dice_roll := 15, is_success := true }

def fxAwaitState : GameState :=
  { session_id := "sess", game_id := "gid",
    game_phase := "AWAITING_DICE_ROLL_CONFIRMATION",
    world := some fxWorld,
    players := [("alice", fxAlice)],
    current_turn_entity_id := some "alice",
    pending_action := some fxPendingOk }

theorem dice_confirmation_spec (gs : GameState) (o : Oracle) (g : Rng) (pa : PendingAction)
    (a : PlayerCharacter) (w : WorldOption)
    (hpa : gs.pending_action = some pa)
    (ha : dictGet gs.players pa.acting_character_id = some a)
    (hw : gs.world = some w) :
    (∃ out : DiceConfirmOut, handle_dice_roll_confirmation gs o g = .ok out ∧
      out.state.pending_action = none ∧
      out.state.game_phase = "GAME_IN_PROGRESS" ∧
      (pa.is_success = true →
        out.state.players = gs.players ∧ out.rng = g ∧
        out.outcome = revealSuccessText pa) ∧
      (pa.is_success = false →
        out.state.players = dictModify gs.players pa.acting_character_id
          (fun pl => { pl with health := pl.health - (g.randint 1 4).1 }) ∧
        1 ≤ (g.randint 1 4).1 ∧ (g.randint 1 4).1 ≤ 4 ∧
        out.rng = (g.randint 1 4).2 ∧
        out.outcome = revealFailureText pa (g.randint 1 4).1)) ∧
    (∀ (gs2 : GameState) (o2 : Oracle) (g2 : Rng), gs2.pending_action = none →
      handle_dice_roll_confirmation gs2 o2 g2 =
        .ok { state := gs2,
              event := { event_type := "ERROR",
                         narrative := "No skill check was pending for confirmation." },
              outcome := "", rng := g2 }) := by
  constructor
  · have hd4 := Rng.randint_mem g 1 4 (by norm_num)
    cases hsucc : pa.is_success with
    | true =>
      have hok : handle_dice_roll_confirmation gs o g =
          (narrate_turn { gs with
              pending_action := none,
              game_phase := "GAME_IN_PROGRESS" } (some a) o).map
            (fun r => { state := r.1, event := r.2,
                        outcome := revealSuccessText pa, rng := g }) := by
        simp only [handle_dice_roll_confirmation, hpa, ha, hsucc, if_true]
      rw [narrate_turn_ok { gs with
            pending_action := none,
            game_phase := "GAME_IN_PROGRESS" } a o w hw] at hok
      simp only [Except.map] at hok
      exact ⟨_, hok, rfl, rfl, fun _ => ⟨rfl, rfl, rfl⟩, fun hc => absurd hc (by simp)⟩
    | false =>
      have hok : handle_dice_roll_confirmation gs o g =
          (narrate_turn { gs with
              players := (dictModify gs.players pa.acting_character_id
                (fun pl => { pl with health := pl.health - (g.randint 1 4).1 })),
              pending_action := none,
              game_phase := "GAME_IN_PROGRESS" } (some a) o).map
            (fun r => { state := r.1, event := r.2,
                        outcome := revealFailureText pa (g.randint 1 4).1,
                        rng := (g.randint 1 4).2 }) := by
        simp only [handle_dice_roll_confirmation, hpa, ha, hsucc, Bool.false_eq_true,
          if_false]
      rw [narrate_turn_ok { gs with
            players := (dictModify gs.players pa.acting_character_id
              (fun pl => { pl with health := pl.health - (g.randint 1 4).1 })),
            pending_action := none,
            game_phase := "GAME_IN_PROGRESS" } a o w hw] at hok
      simp only [Except.map] at hok
      exact ⟨_, hok, rfl, rfl, fun hc => absurd hc (by simp),
        fun _ => ⟨rfl, hd4.1, hd4.2, rfl, rfl⟩⟩
  · intro gs2 o2 g2 h
    simp only [handle_dice_roll_confirmation, h]

/-- C5: phase-2 resolution requires `pending_action` (without one it returns
an error event and leaves the state untouched), branches on the stored
`is_success` verbatim (on success the dice stream is untouched — nothing is
re-rolled — and no character state is mutated), on failure rolls a fresh d4
in `[1,4]` and subtracts it from the acting character with no lower clamp,
and in both branches clears `pending_action` and returns the phase to
GAME_IN_PROGRESS; the reveal text is built from the stored roll, modifier
and DC. -/
theorem claim_C5 (gs : GameState) (o : Oracle) (g : Rng) (pa : PendingAction)
    (a : PlayerCharacter) (w : WorldOption)
    (hpa : gs.pending_action = some pa)
    (ha : dictGet gs.players pa.acting_character_id = some a)
    (hw : gs.world = some w) :
    (∃ out : DiceConfirmOut, handle_dice_roll_confirmation gs o g = .ok out ∧
      out.state.pending_action = none ∧
      out.state.game_phase = "GAME_IN_PROGRESS" ∧
      (pa.is_success = true →
        out.state.players = gs.players ∧ out.rng = g ∧
        out.outcome = revealSuccessText pa) ∧
      (pa.is_success = false →
        out.state.players = dictModify gs.players pa.acting_character_id
          (fun pl => { pl with health := pl.health - (g.randint 1 4).1 }) ∧
        1 ≤ (g.randint 1 4).1 ∧ (g.randint 1 4).1 ≤ 4 ∧
        out.rng = (g.randint 1 4).2 ∧
        out.outcome = revealFailureText pa (g.randint 1 4).1)) ∧
    (∀ (gs2 : GameState) (o2 : Oracle) (g2 : Rng), gs2.pending_action = none →
      handle_dice_roll_confirmation gs2 o2 g2 =
        .ok { state := gs2,
              event := { event_type := "ERROR",
                         narrative := "No skill check was pending for confirmation." },
              outcome := "", rng := g2 }) :=
  dice_confirmation_spec gs o g pa a w hpa ha hw

theorem claim_C5_witness :
    ∃ out : DiceConfirmOut,
      handle_dice_roll_confirmation fxAwaitState fxOracle ⟨[3]⟩ = .ok out ∧
      out.state.pending_action = none ∧
      out.state.game_phase = "GAME_IN_PROGRESS" ∧
      out.state.players = fxAwaitState.players ∧ out.rng = ⟨[3]⟩ := by
  obtain ⟨⟨out, hok, h1, h2, h3, h4⟩, -⟩ :=
    claim_C5 fxAwaitState fxOracle ⟨[3]⟩ fxPendingOk fxAlice fxWorld rfl rfl rfl
  obtain ⟨hp, hr, ho⟩ := h3 rfl
  exact ⟨out, hok, h1, h2, hp, hr⟩

-- ### Claim C7 — character detail parsing

theorem dictInsert_ne_nil {α : Type} (d : List (String × α)) (k : String) (v : α) :
    dictInsert d k v ≠ [] := by
  cases d with
  | nil => simp [dictInsert]
  | cons kv rest =>
    unfold dictInsert
    split <;> simp

theorem pyRsplit_len (action : String) :
    ((splitOnComma action).length < 4 → pyRsplitComma3 action = splitOnComma action) ∧
    ((splitOnComma action).length ≥ 4 → (pyRsplitComma3 action).length = 4) := by
  unfold pyRsplitComma3
  constructor
  · intro h
    rw [if_pos (by omega)]
  · intro h
    by_cases h4 : (splitOnComma action).length ≤ 4
    · rw [if_pos h4]
      omega
    · rw [if_neg h4]
      simp only [List.length_cons, List.length_drop]
      omega

def fxDetailsClass : ClassOption :=
  { name := "Rogue", description := "d", positive_attribute := "Cunning",
    starting_weapon := "Dagger", starting_currency := 10, starting_object := "Rope",
    base_stats := [("dexterity", 14)] }

def fxDetailsState : GameState :=
  { session_id := "sess", game_id := "gid", game_phase := "CHARACTER_CREATION_DETAILS",
    world := some fxWorld, main_plot := some fxWorld.main_plot,
    num_players_to_create := 1, characters_created := 0,
    class_selection_options := some [fxDetailsClass],
    pending_character_class := some fxDetailsClass }

/-- C7 counterexample: the input `"a,b,30,male,story"` has five
comma-separated fields, yet the handler succeeds — `rsplit(",", 3)` folds
the surplus comma into the name, creating a character named `"a,b"` — so an
input without exactly four comma-separated fields is not rejected and the
state is mutated. -/
theorem claim_C7_counterexample :
    (splitOnComma "a,b,30,male,story").length = 5 ∧
    (∃ r, handle_character_creation fxDetailsState "a,b,30,male,story" fxOracle = .ok r ∧
      r.2.event_type = "NARRATIVE_UPDATE" ∧
      r.1.players.map (fun kv => kv.2.name) = ["a,b"] ∧
      r.1.game_phase = "GAME_IN_PROGRESS" ∧
      r.1.players ≠ fxDetailsState.players) :=
  ⟨by decide, ⟨_, rfl, rfl, by decide, rfl, by decide⟩⟩

/-- C7 (amended): in CHARACTER_CREATION_DETAILS the input is split at the
**last three commas** (Python `rsplit(",", 3)`): an input with fewer than
four comma-separated fields fails with the format error and leaves the state
unchanged, and so does one whose age field is not an integer; but an input
with more than four fields is accepted, the surplus commas being absorbed
into the name field, and creates the PlayerCharacter from the four
right-split fields. -/
theorem claim_C7_amended (gs : GameState) (action : String) (o : Oracle)
    (pc : ClassOption) (w : WorldOption) (mp : MainPlot)
    (hphase : gs.game_phase = "CHARACTER_CREATION_DETAILS")
    (hpc : gs.pending_character_class = some pc)
    (hw : gs.world = some w)
    (hmp : gs.main_plot = some mp)
    (cls : List ClassOption)
    (hcls : gs.class_selection_options = some cls) :
    ((splitOnComma action).length < 4 →
      handle_character_creation gs action o = .ok (gs, detailsFormatError)) ∧
    ((splitOnComma action).length ≥ 4 → (pyRsplitComma3 action).length = 4) ∧
    (∀ n a gd b, pyRsplitComma3 action = [n, a, gd, b] →
      (pyInt? (pyStrip a) = none →
        handle_character_creation gs action o = .ok (gs, detailsFormatError)) ∧
      (∀ age : Int, pyInt? (pyStrip a) = some age →
        ∃ st ev, handle_character_creation gs action o = .ok (st, ev) ∧
          st.players = dictInsert gs.players o.freshCharId
            { character_id := o.freshCharId, name := pyStrip n, age := age,
              gender := pyStrip gd, backstory := pyStrip b,
              character_class := pc.name, stats := pc.base_stats,
              skills := pc.initial_abilities, currency := pc.starting_currency,
              inventory := [
                { name := pc.starting_weapon,
                  description := some "A basic starting weapon.", category := "weapon" },
                { name := pc.starting_object,
                  description := some "A curious starting object.", category := "misc" } ] } ∧
          st.characters_created = gs.characters_created + 1 ∧
          st.pending_character_class = none)) := by
  refine ⟨?_, (pyRsplit_len action).2, ?_⟩
  · intro hlen
    have he := (pyRsplit_len action).1 hlen
    unfold handle_character_creation
    rw [hphase]
    rw [if_neg (show ¬ ("CHARACTER_CREATION_DETAILS" = "CHARACTER_CREATION_NUM_PLAYERS") by decide)]
    rw [if_neg (show ¬ ("CHARACTER_CREATION_DETAILS" = "CHARACTER_CREATION_CLASSES") by decide)]
    rw [if_pos rfl, he]
    generalize hg : splitOnComma action = l at hlen
    rcases l with _ | ⟨x1, _ | ⟨x2, _ | ⟨x3, _ | ⟨x4, rest⟩⟩⟩⟩
    · rfl
    · rfl
    · rfl
    · rfl
    · simp only [List.length_cons] at hlen
      omega
  · intro n a gd b hsplit
    unfold handle_character_creation
    rw [hphase]
    rw [if_neg (show ¬ ("CHARACTER_CREATION_DETAILS" = "CHARACTER_CREATION_NUM_PLAYERS") by decide)]
    rw [if_neg (show ¬ ("CHARACTER_CREATION_DETAILS" = "CHARACTER_CREATION_CLASSES") by decide)]
    rw [if_pos rfl, hsplit]
    dsimp only
    constructor
    · intro hage
      rw [hage]
    · intro age hage
      rw [hage, hpc]
      dsimp only
      by_cases hmore : gs.characters_created + 1 < gs.num_players_to_create
      · rw [if_pos (by simpa using hmore), hcls]
        exact ⟨_, _, rfl, rfl, rfl, rfl⟩
      · rw [if_neg (by simpa using hmore)]
        cases hh : (dictInsert gs.players o.freshCharId
            { character_id := o.freshCharId, name := pyStrip n, age := age,
              gender := pyStrip gd, backstory := pyStrip b,
              character_class := pc.name, stats := pc.base_stats,
              skills := pc.initial_abilities, currency := pc.starting_currency,
              inventory := [
                { name := pc.starting_weapon,
                  description := some "A basic starting weapon.", category := "weapon" },
                { name := pc.starting_object,
                  description := some "A curious starting object.", category := "misc" } ] }).head? with
        | none =>
          rw [List.head?_eq_none_iff] at hh
          exact absurd hh (dictInsert_ne_nil _ _ _)
        | some kv =>
          dsimp only
          rw [hw, hmp]
          dsimp only
          cases hmil : mp.key_milestones.getD ["an unexpected event"] with
          | nil => exact ⟨_, _, rfl, rfl, rfl, rfl⟩
          | cons hd tl => exact ⟨_, _, rfl, rfl, rfl, rfl⟩

theorem claim_C7_witness :
    ∃ st ev, handle_character_creation fxDetailsState
        "Kara, 29, female, a wandering scholar" fxOracle = .ok (st, ev) ∧
      st.players.map (fun kv => (kv.1, kv.2.name, kv.2.age)) = [("kara1", "Kara", 29)] ∧
      st.characters_created = 1 ∧ st.pending_character_class = none := by
  obtain ⟨h1, h2, h3⟩ := claim_C7_amended fxDetailsState
    "Kara, 29, female, a wandering scholar" fxOracle fxDetailsClass fxWorld
    fxWorld.main_plot rfl rfl rfl rfl [fxDetailsClass] rfl
  obtain ⟨hnone, hsome⟩ :=
    h3 "Kara" " 29" " female" " a wandering scholar" (by decide)
  obtain ⟨st, ev, hok, hp, hc, hpcn⟩ := hsome 29 (by decide)
  refine ⟨st, ev, hok, ?_, ?_, hpcn⟩
  · rw [hp]
    decide
  · rw [hc]
    decide

-- ### Claim C10 — FORCE_GAME_STATE

/-- C10: a FORCE_GAME_STATE task with a non-empty payload persists exactly
the payload with its `session_id` overwritten by the task session id, runs
no phase handler or rules-engine code (the output is identical for every
oracle and dice stream), performs no post-turn scheduling (single write,
no NPC enqueue), and with a missing payload persists and publishes nothing. -/
theorem claim_C10 (p : TaskPayload) (o o2 : Oracle) (g g2 : Rng)
    (hact : actionTextOf p = "FORCE_GAME_STATE") :
    (∀ fs : GameState, forcedPayloadOf p = some fs →
      process_game_action_task p o g = .ok
        { writes := [{ fs with session_id := p.session_id }],
          published := [{ event_type := "STATE_FORCED",
                          narrative := "State forced for testing.",
                          new_game_state := some { fs with session_id := p.session_id } }],
          npcEnqueued := false, status := "success" }) ∧
    (forcedPayloadOf p = none →
      process_game_action_task p o g = .ok
        { writes := [], published := [], npcEnqueued := false, status := "error" }) ∧
    process_game_action_task p o g = process_game_action_task p o2 g2 := by
  refine ⟨?_, ?_, ?_⟩
  · intro fs hfs
    unfold process_game_action_task
    rw [hact, if_pos rfl, hfs]
  · intro hfs
    unfold process_game_action_task
    rw [hact, if_pos rfl, hfs]
  · unfold process_game_action_task
    rw [hact]
    rfl

def fxGipState : GameState :=
  { session_id := "sess", game_id := "gid", game_phase := "GAME_IN_PROGRESS",
    world := some fxWorld,
    players := [("alice", fxAlice), ("bob", fxBob)],
    current_turn_entity_id := some "alice" }

def fxForcePayload : TaskPayload :=
  { session_id := "realsess", client_id := "cl", game_state := fxGipState,
    client_action := some { action_type := some "FORCE_GAME_STATE",
                            payload := some fxAwaitState } }

theorem claim_C10_witness :
    ∃ out, process_game_action_task fxForcePayload fxOracle ⟨[50]⟩ = .ok out ∧
      out.writes.map (fun s => (s.session_id, s.game_phase)) =
        [("realsess", "AWAITING_DICE_ROLL_CONFIRMATION")] ∧
      out.published.map (fun e => e.event_type) = ["STATE_FORCED"] ∧
      out.npcEnqueued = false ∧ out.status = "success" := by
  have h := (claim_C10 fxForcePayload fxOracle fxOracle ⟨[50]⟩ ⟨[50]⟩ rfl).1
    fxAwaitState rfl
  exact ⟨_, h, by decide, by decide, rfl, rfl⟩

-- ### Dispatcher post-turn helper lemmas

theorem advance_turn_fields (gs : GameState) :
    (advance_turn_in_combat gs).1.pending_action = gs.pending_action ∧
    (advance_turn_in_combat gs).1.game_phase = gs.game_phase ∧
    (advance_turn_in_combat gs).1.initiative_order = gs.initiative_order ∧
    (advance_turn_in_combat gs).1.players = gs.players := by
  unfold advance_turn_in_combat
  cases h : gs.current_turn_entity_id.bind
      (fun c => List.findIdx? (fun x => x == c) gs.initiative_order) with
  | some i => exact ⟨rfl, rfl, rfl, rfl⟩
  | none =>
    cases hio : gs.initiative_order with
    | nil => exact ⟨rfl, rfl, hio, rfl⟩
    | cons f t => exact ⟨rfl, rfl, rfl, rfl⟩

theorem postTurn_writes_cases (initial : String) (fin : GameState) (ev : ResultEvent) :
    ∃ rest : List GameState, (postTurn initial fin ev).writes = fin :: rest ∧
      ∀ s ∈ rest, s.pending_action = fin.pending_action ∧
        s.game_phase = fin.game_phase ∧
        s.initiative_order = fin.initiative_order ∧ s.players = fin.players := by
  unfold postTurn
  by_cases h1 : fin.game_phase = "IN_COMBAT"
  · rw [if_pos h1]
    dsimp only
    by_cases h2 : initial = "IN_COMBAT"
    · rw [if_pos h2]
      by_cases h3 : (advance_turn_in_combat fin).2 = true
      · rw [if_pos h3]
        refine ⟨[(advance_turn_in_combat fin).1], rfl, ?_⟩
        intro s hs
        rw [List.mem_singleton] at hs
        rw [hs]
        exact advance_turn_fields fin
      · rw [if_neg h3]
        exact ⟨[], rfl, by simp⟩
    · rw [if_neg h2]
      dsimp only
      by_cases h3 : (match fin.current_turn_entity_id with
          | some c => ! dictContains fin.players c
          | none => true) = true
      · rw [if_pos h3]
        refine ⟨[fin], rfl, ?_⟩
        intro s hs
        rw [List.mem_singleton] at hs
        rw [hs]
        exact ⟨rfl, rfl, rfl, rfl⟩
      · rw [if_neg h3]
        exact ⟨[], rfl, by simp⟩
  · rw [if_neg h1]
    by_cases h2 : fin.game_phase = "GAME_IN_PROGRESS"
    · rw [if_pos h2]
      dsimp only
      cases hc : fin.current_turn_entity_id with
      | some a =>
        dsimp only
        by_cases h3 : (fin.players.map (fun kv => kv.1)).length > 1 ∧
            a ∈ fin.players.map (fun kv => kv.1)
        · rw [if_pos h3]
          refine ⟨[_], rfl, ?_⟩
          intro s hs
          rw [List.mem_singleton] at hs
          rw [hs]
          exact ⟨rfl, rfl, rfl, rfl⟩
        · rw [if_neg h3]
          exact ⟨[], rfl, by simp⟩
      | none => exact ⟨[], rfl, by simp⟩
    · rw [if_neg h2]
      exact ⟨[], rfl, by simp⟩

-- ### Claim C9 — the confirmation phase accepts any action

theorem process_task_nonforce (p : TaskPayload) (o : Oracle) (g : Rng)
    (hforce : actionTextOf p ≠ "FORCE_GAME_STATE") :
    process_game_action_task p o g =
      match dispatchBranch p.game_state (actionTextOf p) o g with
      | .error e => .error e
      | .ok none => .ok { writes := [], published := [], npcEnqueued := false,
                          status := "error" }
      | .ok (some r) => .ok (postTurn p.game_state.game_phase r.1 r.2.1) := by
  unfold process_game_action_task
  rw [if_neg hforce]

theorem dispatchBranch_awaiting (gs : GameState) (a : String) (o : Oracle) (g : Rng)
    (hphase : gs.game_phase = "AWAITING_DICE_ROLL_CONFIRMATION") :
    dispatchBranch gs a o g =
      (handle_dice_roll_confirmation gs o g).map
        (fun r => some (r.state, r.event, r.rng)) := by
  unfold dispatchBranch
  rw [hphase]
  rw [if_neg (show ¬ ("AWAITING_DICE_ROLL_CONFIRMATION" = "NEW_GAME") by decide)]
  rw [if_neg (show ¬ ("AWAITING_DICE_ROLL_CONFIRMATION" = "WORLD_SELECTION") by decide)]
  rw [if_neg (show ¬ (strStartsWith "AWAITING_DICE_ROLL_CONFIRMATION" "CHARACTER_CREATION" = true) by decide)]
  rw [if_pos rfl]

def fxAwaitPayload : TaskPayload :=
  { session_id := "sess", client_id := "cl", game_state := fxAwaitState,
    client_action := some { action_type := some "observe" } }

/-- C9 counterexample: a task whose action type is `"observe"` — not the
CONFIRM_DICE_ROLL sentinel — delivered in AWAITING_DICE_ROLL_CONFIRMATION
still invokes phase-2 resolution and mutates the state: the persisted state
has left the phase and its pending action is cleared. -/
theorem claim_C9_counterexample :
    actionTextOf fxAwaitPayload = "observe" ∧
    (process_game_action_task fxAwaitPayload fxOracle ⟨[3]⟩).toOption.map
      (fun out => out.writes.map (fun s => (s.game_phase, s.pending_action.isSome))) =
      some [("GAME_IN_PROGRESS", false)] :=
  ⟨rfl, by decide⟩

/-- C9 (amended): while the snapshot phase is AWAITING_DICE_ROLL_CONFIRMATION
the dispatcher routes **every** action type (anything except the
FORCE_GAME_STATE escape hatch) to phase-2 resolution: the CONFIRM_DICE_ROLL
sentinel is never checked, and every persisted state has the pending action
cleared and the phase moved to GAME_IN_PROGRESS. -/
theorem claim_C9_amended (p : TaskPayload) (o : Oracle) (g : Rng)
    (pa : PendingAction) (a : PlayerCharacter) (w : WorldOption)
    (hphase : p.game_state.game_phase = "AWAITING_DICE_ROLL_CONFIRMATION")
    (hforce : actionTextOf p ≠ "FORCE_GAME_STATE")
    (hpa : p.game_state.pending_action = some pa)
    (ha : dictGet p.game_state.players pa.acting_character_id = some a)
    (hw : p.game_state.world = some w) :
    ∃ out, process_game_action_task p o g = .ok out ∧
      out.writes ≠ [] ∧
      ∀ s ∈ out.writes, s.pending_action = none ∧ s.game_phase = "GAME_IN_PROGRESS" := by
  obtain ⟨⟨dout, hok, hpend, hph, hsu, hfa⟩, -⟩ :=
    dice_confirmation_spec p.game_state o g pa a w hpa ha hw
  have hred := process_task_nonforce p o g hforce
  rw [dispatchBranch_awaiting _ _ _ _ hphase, hok] at hred
  simp only [Except.map] at hred
  obtain ⟨rest, hwr, hrest⟩ :=
    postTurn_writes_cases p.game_state.game_phase dout.state dout.event
  refine ⟨_, hred, ?_, ?_⟩
  · rw [hwr]
    simp
  · intro s hs2
    rw [hwr] at hs2
    rcases List.mem_cons.mp hs2 with h | h
    · rw [h]
      exact ⟨hpend, hph⟩
    · obtain ⟨h1, h2, h3, h4⟩ := hrest s h
      exact ⟨h1.trans hpend, h2.trans hph⟩

theorem claim_C9_witness :
    ∃ out, process_game_action_task fxAwaitPayload fxOracle ⟨[3]⟩ = .ok out ∧
      out.writes ≠ [] ∧
      ∀ s ∈ out.writes, s.pending_action = none ∧ s.game_phase = "GAME_IN_PROGRESS" :=
  claim_C9_amended fxAwaitPayload fxOracle ⟨[3]⟩ fxPendingOk fxAlice fxWorld
    rfl (by decide) rfl rfl rfl

-- ### Claim C2 — combat end and initiative clearing

theorem handle_inventory_fields (intent : PlayerIntent) (gs : GameState)
    (pkey : String) (p : PlayerCharacter) :
    (handle_inventory_intent intent gs pkey p).1.game_phase = gs.game_phase ∧
    (handle_inventory_intent intent gs pkey p).1.initiative_order = gs.initiative_order ∧
    (handle_inventory_intent intent gs pkey p).1.current_turn_entity_id =
      gs.current_turn_entity_id ∧
    (handle_inventory_intent intent gs pkey p).1.scene_context = gs.scene_context ∧
    (handle_inventory_intent intent gs pkey p).1.pending_action = gs.pending_action := by
  unfold handle_inventory_intent
  cases h : intent.item_name with
  | none => exact ⟨rfl, rfl, rfl, rfl, rfl⟩
  | some n0 =>
    dsimp only
    split_ifs <;> exact ⟨rfl, rfl, rfl, rfl, rfl⟩

theorem handle_attack_fields (intent : PlayerIntent) (gs : GameState)
    (p : PlayerCharacter) (g : Rng) :
    (handle_attack_intent intent gs p g).1.game_phase = gs.game_phase ∧
    (handle_attack_intent intent gs p g).1.initiative_order = gs.initiative_order ∧
    (handle_attack_intent intent gs p g).1.current_turn_entity_id =
      gs.current_turn_entity_id ∧
    (handle_attack_intent intent gs p g).1.players = gs.players ∧
    (handle_attack_intent intent gs p g).1.pending_action = gs.pending_action := by
  unfold handle_attack_intent
  cases h : intent.target with
  | none => exact ⟨rfl, rfl, rfl, rfl, rfl⟩
  | some t =>
    dsimp only
    split_ifs with h1
    · exact ⟨rfl, rfl, rfl, rfl, rfl⟩
    · cases h2 : gs.scene_context.entities.find?
          (fun e => strToLower e.name == strToLower t) with
      | none => exact ⟨rfl, rfl, rfl, rfl, rfl⟩
      | some e =>
        dsimp only
        split_ifs <;> exact ⟨rfl, rfl, rfl, rfl, rfl⟩

theorem intent_dispatch_fields (intent : PlayerIntent) (gs : GameState)
    (pkey : String) (p : PlayerCharacter) (g : Rng)
    (hskill : intent.intent_type ≠ "SKILL_CHECK") :
    (intent_dispatch intent gs pkey p g).1.game_phase = gs.game_phase ∧
    (intent_dispatch intent gs pkey p g).1.initiative_order = gs.initiative_order ∧
    (intent_dispatch intent gs pkey p g).1.current_turn_entity_id =
      gs.current_turn_entity_id ∧
    (intent_dispatch intent gs pkey p g).1.pending_action = gs.pending_action := by
  unfold intent_dispatch
  by_cases h1 : intent.intent_type = "MANAGE_INVENTORY"
  · rw [if_pos h1]
    obtain ⟨a1, a2, a3, a4, a5⟩ := handle_inventory_fields intent gs pkey p
    exact ⟨a1, a2, a3, a5⟩
  · rw [if_neg h1, if_neg hskill]
    by_cases h3 : intent.intent_type = "ATTACK"
    · rw [if_pos h3]
      obtain ⟨a1, a2, a3, a4, a5⟩ := handle_attack_fields intent gs p g
      exact ⟨a1, a2, a3, a5⟩
    · rw [if_neg h3]
      exact ⟨rfl, rfl, rfl, rfl⟩

def fxDeadGob : SceneEntity :=
  { instance_id := "gob1", name := "Goblin", description := "a goblin",
    health := 0, is_hostile := true }

def fxNpcEndState : GameState :=
  { session_id := "sess", game_id := "gid", game_phase := "IN_COMBAT",
    world := some fxWorld,
    players := [("alice", fxAlice)],
    scene_context := { entities := [fxDeadGob] },
    current_turn_entity_id := some "gob1",
    initiative_order := ["gob1", "alice"] }

/-- C2 counterexample: an NPC-turn task on an in-combat state whose only
hostile is already dead flips the phase to GAME_IN_PROGRESS but leaves
`initiative_order` populated, refuting both "initiative-order clearing" on
this transition and "initiative_order is populated only while
game_phase = IN_COMBAT" over every transition of the system. -/
theorem claim_C2_counterexample :
    fxNpcEndState.game_phase = "IN_COMBAT" ∧
    remainingHostiles fxNpcEndState = false ∧
    (process_npc_turn_task fxNpcEndState).1.game_phase = "GAME_IN_PROGRESS" ∧
    (process_npc_turn_task fxNpcEndState).1.initiative_order = ["gob1", "alice"] ∧
    (process_npc_turn_task fxNpcEndState).1.initiative_order ≠ [] := by decide

/-- C2 (amended): on the player-turn path (`process_turn_events`), for any
non-skill-check intent handled while IN_COMBAT, combat ends exactly when no
hostile scene entity retains health > 0: the result phase is GAME_IN_PROGRESS
with `initiative_order` cleared and the turn handed to the acting player
precisely when no hostile survives, and otherwise the phase stays IN_COMBAT
with `initiative_order` untouched. (The NPC-turn task ends combat without
clearing `initiative_order`, and an in-combat skill check parks the populated
`initiative_order` in AWAITING_DICE_ROLL_CONFIRMATION — see the
counterexample.) -/
theorem claim_C2_amended (intent : PlayerIntent) (gs : GameState) (pkey : String)
    (p : PlayerCharacter) (g : Rng)
    (hphase : gs.game_phase = "IN_COMBAT")
    (hskill : intent.intent_type ≠ "SKILL_CHECK") :
    ((process_turn_events intent gs pkey p g).1.game_phase = "IN_COMBAT" ∨
      (process_turn_events intent gs pkey p g).1.game_phase = "GAME_IN_PROGRESS") ∧
    ((process_turn_events intent gs pkey p g).1.game_phase = "IN_COMBAT" →
      remainingHostiles (process_turn_events intent gs pkey p g).1 = true ∧
      (process_turn_events intent gs pkey p g).1.initiative_order = gs.initiative_order) ∧
    ((process_turn_events intent gs pkey p g).1.game_phase = "GAME_IN_PROGRESS" →
      remainingHostiles (process_turn_events intent gs pkey p g).1 = false ∧
      (process_turn_events intent gs pkey p g).1.initiative_order = [] ∧
      (process_turn_events intent gs pkey p g).1.current_turn_entity_id =
        some p.character_id) := by
  have hstep1 : ¬ (intent.intent_type = "ATTACK" ∧ gs.game_phase ≠ "IN_COMBAT" ∧
      combatInitTarget intent gs = true) := by
    rintro ⟨-, hne, -⟩
    exact hne hphase
  unfold process_turn_events
  rw [if_neg hstep1]
  dsimp only
  obtain ⟨f1, f2, f3, f4⟩ :=
    intent_dispatch_fields intent gs pkey p (g.randint 1 100).2 hskill
  unfold combat_end_check
  by_cases hrem : remainingHostiles (intent_dispatch intent gs pkey p (g.randint 1 100).2).1 = true
  · rw [if_neg (by
      rintro ⟨-, hno⟩
      exact hno hrem)]
    dsimp only
    rw [f1, hphase]
    refine ⟨Or.inl rfl, fun _ => ⟨hrem, f2⟩, fun hgip => absurd hgip (by decide)⟩
  · rw [if_pos ⟨by rw [f1, hphase], by simpa using hrem⟩]
    dsimp only
    refine ⟨Or.inr rfl, fun hic => absurd hic (by decide), fun _ => ⟨?_, rfl, rfl⟩⟩
    simpa using hrem

def fxObserveIntent : PlayerIntent :=
  { intent_type := "OBSERVE", action_description := "look" }

def fxCombatState : GameState :=
  { session_id := "s", game_id := "g", game_phase := "IN_COMBAT",
    world := some fxWorld,
    players := [("alice", fxAlice)],
    scene_context := { entities := [fxGoblin] },
    current_turn_entity_id := some "alice",
    initiative_order := ["alice", "gob1"] }

theorem claim_C2_witness :
    remainingHostiles
      (process_turn_events fxObserveIntent fxCombatState "alice" fxAlice ⟨[50]⟩).1 = true ∧
    (process_turn_events fxObserveIntent fxCombatState "alice" fxAlice ⟨[50]⟩).1.initiative_order =
      ["alice", "gob1"] := by
  have h := claim_C2_amended fxObserveIntent fxCombatState "alice" fxAlice ⟨[50]⟩
    rfl (by decide)
  obtain ⟨hr, hi⟩ := h.2.1 (by decide)
  exact ⟨hr, hi.trans rfl⟩

-- ### Claim C1 — no stale-action re-validation in the dispatcher

def fxGipPayload : TaskPayload :=
  { session_id := "sess", client_id := "cl", game_state := fxGipState,
    client_action := some { action_type := some "I look around" } }

/-- C1 (code bug): `process_game_action_task` never consults the session
store — its embedding does not even take the persisted state as an input,
because the code validates the caller-supplied snapshot
`payload["game_state"]` — so a delivery whose snapshot still names alice as
the current actor is applied and persisted unconditionally (status success,
a state is written, and the round-robin advance even moves the turn on),
with no stale-action rejection path: the StaleActionError demanded by the
claim does not exist in the code. -/
theorem claim_C1_no_stale_rejection :
    fxGipState.current_turn_entity_id = some "alice" ∧
    (process_game_action_task fxGipPayload fxOracle ⟨[50]⟩).toOption.map
      (fun out => (out.status, out.writes.map (fun s => s.current_turn_entity_id))) =
      some ("success", [some "alice", some "bob"]) :=
  ⟨rfl, by decide⟩

-- ### Claim C8 — NPC-turn re-enqueue chain is not depth-capped

def fxGob2 : SceneEntity :=
  { instance_id := "gob2", name := "Gob Two", description := "another goblin",
    health := 5, is_hostile := true }

/-- A corrupted initiative list that contains only NPC ids while a player
and live hostiles exist. -/
def fxNpcLoopState : GameState :=
  { session_id := "sess", game_id := "gid", game_phase := "IN_COMBAT",
    world := some fxWorld,
    players := [("alice", fxAlice)],
    scene_context := { entities := [fxGoblin, fxGob2] },
    current_turn_entity_id := some "gob1",
    initiative_order := ["gob1", "gob2"] }

/-- C8 (code bug): the NPC-turn task carries no depth counter and caps
nothing: on a state whose initiative list holds only the two NPC ids, every
chain step re-enqueues another NPC-turn task (the chain alternates between
the two NPCs forever), so after any number of steps — in particular more
than the 3 combatants — the chain is still re-enqueuing, contradicting the
claimed bound by the number of combatants. -/
theorem claim_C8_unbounded_chain :
    (combatantsOf fxNpcLoopState).length = 3 ∧
    ∀ n : Nat, (process_npc_turn_task (npcChainState fxNpcLoopState n)).2 = true := by
  refine ⟨by decide, ?_⟩
  have hcyc : ∀ n, npcChainState fxNpcLoopState n = fxNpcLoopState ∨
      npcChainState fxNpcLoopState n = (process_npc_turn_task fxNpcLoopState).1 := by
    intro n
    induction n with
    | zero => exact Or.inl rfl
    | succ k ih =>
      have hstep : npcChainState fxNpcLoopState (k + 1) =
          (process_npc_turn_task (npcChainState fxNpcLoopState k)).1 := rfl
      rcases ih with h | h
      · right
        rw [hstep, h]
      · left
        rw [hstep, h]
        decide
  intro n
  rcases hcyc n with h | h <;> rw [h] <;> decide

-- ### Claim C3 — pending_action iff AWAITING_DICE_ROLL_CONFIRMATION

/-- The claimed invariant: a pending action is stored exactly while the
session awaits the dice-roll confirmation. -/
def pendInv (s : GameState) : Prop :=
  s.pending_action.isSome = true ↔ s.game_phase = "AWAITING_DICE_ROLL_CONFIRMATION"

theorem pendInv_of (s : GameState) (hpend : s.pending_action.isSome = false)
    (hph : s.game_phase ≠ "AWAITING_DICE_ROLL_CONFIRMATION") : pendInv s := by
  constructor
  · intro h
    rw [hpend] at h
    exact absurd h (by simp)
  · intro h
    exact absurd h hph

theorem pendInv_awaiting (s : GameState) (hpend : s.pending_action.isSome = true)
    (hph : s.game_phase = "AWAITING_DICE_ROLL_CONFIRMATION") : pendInv s :=
  ⟨fun _ => hph, fun _ => hpend⟩

theorem pendInv_none (s : GameState) (hinv : pendInv s)
    (hph : s.game_phase ≠ "AWAITING_DICE_ROLL_CONFIRMATION") :
    s.pending_action.isSome = false := by
  cases h : s.pending_action.isSome with
  | false => rfl
  | true => exact absurd (hinv.mp h) hph

theorem narrate_fields (gs : GameState) (actor : Option PlayerCharacter) (o : Oracle) :
    ∀ s ev, narrate_turn gs actor o = .ok (s, ev) →
      s.pending_action = gs.pending_action ∧ s.game_phase = gs.game_phase := by
  intro s ev h
  unfold narrate_turn at h
  cases actor with
  | none => exact Except.noConfusion h
  | some a =>
    cases hw : gs.world with
    | none =>
      rw [hw] at h
      exact Except.noConfusion h
    | some w =>
      rw [hw] at h
      dsimp only at h
      injection h with h2
      injection h2 with h3 h4
      rw [← h3]
      exact ⟨rfl, rfl⟩

theorem world_selection_fields (gs : GameState) (o : Oracle) :
    (handle_world_selection gs o).1 = gs ∨
    ((handle_world_selection gs o).1.pending_action = gs.pending_action ∧
      (handle_world_selection gs o).1.game_phase = "CHARACTER_CREATION_NUM_PLAYERS") := by
  unfold handle_world_selection
  dsimp only
  cases hg : (gs.world_selection_options.getD []).get?
      (nlChoice o (gs.world_selection_options.getD []).length - 1) with
  | none =>
    cases hc : nlChoice o (gs.world_selection_options.getD []).length with
    | zero => exact Or.inl rfl
    | succ k => exact Or.inl rfl
  | some w =>
    cases hc : nlChoice o (gs.world_selection_options.getD []).length with
    | zero => exact Or.inl rfl
    | succ k => exact Or.inr ⟨rfl, rfl⟩

theorem char_creation_pend (gs : GameState) (a : String) (o : Oracle) :
    ∀ r, handle_character_creation gs a o = .ok r →
      r.1.pending_action = gs.pending_action ∧
      (r.1.game_phase = gs.game_phase ∨
        r.1.game_phase = "CHARACTER_CREATION_CLASSES" ∨
        r.1.game_phase = "CHARACTER_CREATION_DETAILS" ∨
        r.1.game_phase = "GAME_IN_PROGRESS") := by
  intro r hr
  unfold handle_character_creation at hr
  dsimp only at hr
  repeat' split at hr
  all_goals
    first
      | exact Except.noConfusion hr
      | (injection hr with hr2
         subst hr2
         refine ⟨rfl, ?_⟩
         first
           | exact Or.inl rfl
           | exact Or.inr (Or.inl rfl)
           | exact Or.inr (Or.inr (Or.inl rfl))
           | exact Or.inr (Or.inr (Or.inr rfl)))

theorem intent_dispatch_pend (intent : PlayerIntent) (gs : GameState)
    (pkey : String) (p : PlayerCharacter) (g : Rng) :
    ((intent_dispatch intent gs pkey p g).1.pending_action = gs.pending_action ∧
      (intent_dispatch intent gs pkey p g).1.game_phase = gs.game_phase) ∨
    ((intent_dispatch intent gs pkey p g).1.pending_action.isSome = true ∧
      (intent_dispatch intent gs pkey p g).1.game_phase =
        "AWAITING_DICE_ROLL_CONFIRMATION") := by
  by_cases h2 : intent.intent_type = "SKILL_CHECK"
  · right
    unfold intent_dispatch
    rw [if_neg (by rw [h2]; decide), if_pos h2]
    exact ⟨rfl, rfl⟩
  · left
    obtain ⟨f1, f2, f3, f4⟩ := intent_dispatch_fields intent gs pkey p g h2
    exact ⟨f4, f1⟩

theorem process_turn_pend (intent : PlayerIntent) (gs : GameState) (pkey : String)
    (p : PlayerCharacter) (g : Rng)
    (h : gs.game_phase ≠ "AWAITING_DICE_ROLL_CONFIRMATION") :
    ((process_turn_events intent gs pkey p g).1.pending_action = gs.pending_action ∧
      (process_turn_events intent gs pkey p g).1.game_phase ≠
        "AWAITING_DICE_ROLL_CONFIRMATION") ∨
    ((process_turn_events intent gs pkey p g).1.pending_action.isSome = true ∧
      (process_turn_events intent gs pkey p g).1.game_phase =
        "AWAITING_DICE_ROLL_CONFIRMATION") := by
  unfold process_turn_events
  by_cases hs1 : intent.intent_type = "ATTACK" ∧ gs.game_phase ≠ "IN_COMBAT" ∧
      combatInitTarget intent gs = true
  · rw [if_pos hs1]
    obtain ⟨b1, b2, b3, b4, b5, b6⟩ := initiate_combat_fields gs g
    left
    refine ⟨b4, ?_⟩
    rw [b1]
    decide
  · rw [if_neg hs1]
    dsimp only
    rcases intent_dispatch_pend intent gs pkey p (g.randint 1 100).2 with
      ⟨hp, hph⟩ | ⟨hp, hph⟩
    · unfold combat_end_check
      by_cases hend : (intent_dispatch intent gs pkey p (g.randint 1 100).2).1.game_phase =
          "IN_COMBAT" ∧ ¬ remainingHostiles (intent_dispatch intent gs pkey p (g.randint 1 100).2).1
      · rw [if_pos hend]
        left
        refine ⟨hp, ?_⟩
        show ("GAME_IN_PROGRESS" : String) ≠ "AWAITING_DICE_ROLL_CONFIRMATION"
        decide
      · rw [if_neg hend]
        left
        refine ⟨hp, ?_⟩
        rw [hph]
        exact h
    · unfold combat_end_check
      rw [if_neg (by
        rintro ⟨hic, -⟩
        rw [hph] at hic
        exact absurd hic (by decide))]
      right
      exact ⟨hp, hph⟩

theorem standard_turn_pend (gs : GameState) (cid : String) (o : Oracle) (g : Rng)
    (h : gs.game_phase ≠ "AWAITING_DICE_ROLL_CONFIRMATION") :
    ∀ r, handle_standard_turn gs cid o g = .ok r →
      (r.1.pending_action = gs.pending_action ∧
        r.1.game_phase ≠ "AWAITING_DICE_ROLL_CONFIRMATION") ∨
      (r.1.pending_action.isSome = true ∧
        r.1.game_phase = "AWAITING_DICE_ROLL_CONFIRMATION") := by
  intro r hr
  unfold handle_standard_turn at hr
  cases hactor : dictGet gs.players cid with
  | none =>
    rw [hactor] at hr
    dsimp only at hr
    injection hr with hr2
    subst hr2
    exact Or.inl ⟨rfl, h⟩
  | some actor =>
    rw [hactor] at hr
    dsimp only at hr
    by_cases hpause : (process_turn_events o.intent gs cid actor g).1.game_phase =
        "AWAITING_DICE_ROLL_CONFIRMATION"
    · rw [if_pos hpause] at hr
      injection hr with hr2
      subst hr2
      rcases process_turn_pend o.intent gs cid actor g h with ⟨-, hph⟩ | ⟨hp, hph⟩
      · exact absurd hpause hph
      · exact Or.inr ⟨hp, hph⟩
    · rw [if_neg hpause] at hr
      cases hn : narrate_turn (process_turn_events o.intent gs cid actor g).1 (some actor) o with
      | error e =>
        rw [hn] at hr
        exact Except.noConfusion hr
      | ok pr =>
        rw [hn] at hr
        simp only [Except.map] at hr
        injection hr with hr2
        subst hr2
        obtain ⟨n1, n2⟩ := narrate_fields _ _ _ pr.1 pr.2 (by rw [hn])
        rcases process_turn_pend o.intent gs cid actor g h with ⟨hp, hph⟩ | ⟨hp, hph⟩
        · left
          constructor
          · exact n1.trans hp
          · rw [n2]
            exact hph
        · exact absurd hph hpause

theorem dice_pend (gs : GameState) (o : Oracle) (g : Rng)
    (hps : gs.pending_action.isSome = true) :
    ∀ r, handle_dice_roll_confirmation gs o g = .ok r →
      r.state.pending_action = none ∧ r.state.game_phase = "GAME_IN_PROGRESS" := by
  intro r hr
  unfold handle_dice_roll_confirmation at hr
  cases hpa : gs.pending_action with
  | none => rw [hpa] at hps; exact absurd hps (by simp)
  | some pending =>
    rw [hpa] at hr
    dsimp only at hr
    by_cases hsucc : pending.is_success = true
    · rw [if_pos hsucc] at hr
      cases hn : narrate_turn
          { gs with
            pending_action := none,
            game_phase := "GAME_IN_PROGRESS" }
          (dictGet gs.players pending.acting_character_id) o with
      | error e =>
        rw [hn] at hr
        exact Except.noConfusion hr
      | ok pr =>
        rw [hn] at hr
        simp only [Except.map] at hr
        injection hr with hr2
        subst hr2
        obtain ⟨n1, n2⟩ := narrate_fields _ _ _ pr.1 pr.2 (by rw [hn])
        exact ⟨n1, n2⟩
    · rw [if_neg hsucc] at hr
      cases hactor : dictGet gs.players pending.acting_character_id with
      | none =>
        rw [hactor] at hr
        exact Except.noConfusion hr
      | some actor =>
        rw [hactor] at hr
        dsimp only at hr
        cases hn : narrate_turn
            { gs with
              players := (dictModify gs.players pending.acting_character_id
                (fun pl => { pl with health := pl.health - (g.randint 1 4).1 })),
              pending_action := none,
              game_phase := "GAME_IN_PROGRESS" }
            (some actor) o with
        | error e =>
          rw [hn] at hr
          exact Except.noConfusion hr
        | ok pr =>
          rw [hn] at hr
          simp only [Except.map] at hr
          injection hr with hr2
          subst hr2
          obtain ⟨n1, n2⟩ := narrate_fields _ _ _ pr.1 pr.2 (by rw [hn])
          exact ⟨n1, n2⟩

theorem startsWith_ne_awaiting (s : String)
    (h : strStartsWith s "CHARACTER_CREATION" = true) :
    s ≠ "AWAITING_DICE_ROLL_CONFIRMATION" := by
  intro he
  rw [he] at h
  exact absurd h (by decide)

theorem dispatchBranch_inv (gs : GameState) (a : String) (o : Oracle) (g : Rng)
    (hinv : pendInv gs) :
    ∀ r, dispatchBranch gs a o g = .ok (some r) → pendInv r.1 := by
  intro r hr
  unfold dispatchBranch at hr
  by_cases h1 : gs.game_phase = "NEW_GAME"
  · rw [if_pos h1] at hr
    simp only [Except.ok.injEq, Option.some.injEq] at hr
    subst hr
    refine pendInv_of _ ?_
      (by show ("WORLD_SELECTION" : String) ≠ "AWAITING_DICE_ROLL_CONFIRMATION"; decide)
    exact pendInv_none gs hinv (by rw [h1]; decide)
  · rw [if_neg h1] at hr
    by_cases h2 : gs.game_phase = "WORLD_SELECTION"
    · rw [if_pos h2] at hr
      simp only [Except.ok.injEq, Option.some.injEq] at hr
      subst hr
      rcases world_selection_fields gs o with hsame | ⟨hp, hph⟩
      · rw [show (handle_world_selection gs o).1 = gs from hsame]
        exact hinv
      · refine pendInv_of _ ?_ (by rw [hph]; decide)
        rw [hp]
        exact pendInv_none gs hinv (by rw [h2]; decide)
    · rw [if_neg h2] at hr
      by_cases h3 : strStartsWith gs.game_phase "CHARACTER_CREATION" = true
      · rw [if_pos h3] at hr
        cases hcc : handle_character_creation gs a o with
        | error e =>
          rw [hcc] at hr
          exact Except.noConfusion hr
        | ok cr =>
          rw [hcc] at hr
          simp only [Except.map, Except.ok.injEq, Option.some.injEq] at hr
          obtain ⟨hp, hph⟩ := char_creation_pend gs a o cr hcc
          have hpnone : gs.pending_action.isSome = false :=
            pendInv_none gs hinv (startsWith_ne_awaiting _ h3)
          subst hr
          refine pendInv_of _ (by rw [hp]; exact hpnone) ?_
          rcases hph with h | h | h | h
          · rw [h]
            exact startsWith_ne_awaiting _ h3
          · rw [h]; decide
          · rw [h]; decide
          · rw [h]; decide
      · rw [if_neg h3] at hr
        by_cases h4 : gs.game_phase = "AWAITING_DICE_ROLL_CONFIRMATION"
        · rw [if_pos h4] at hr
          cases hdc : handle_dice_roll_confirmation gs o g with
          | error e =>
            rw [hdc] at hr
            exact Except.noConfusion hr
          | ok d =>
            rw [hdc] at hr
            simp only [Except.map, Except.ok.injEq, Option.some.injEq] at hr
            obtain ⟨hp, hph⟩ := dice_pend gs o g (hinv.mpr h4) d hdc
            subst hr
            exact pendInv_of _ (by rw [hp]; rfl) (by rw [hph]; decide)
        · rw [if_neg h4] at hr
          by_cases h5 : gs.game_phase = "IN_COMBAT"
          · rw [if_pos h5] at hr
            cases hcur : gs.current_turn_entity_id with
            | none =>
              rw [hcur] at hr
              exact Option.noConfusion (Except.ok.inj hr)
            | some cid =>
              rw [hcur] at hr
              dsimp only at hr
              by_cases hvalid : cid ≠ "" ∧ dictContains gs.players cid = true
              · rw [if_pos hvalid] at hr
                cases hst : handle_standard_turn gs cid o g with
                | error e =>
                  rw [hst] at hr
                  exact Except.noConfusion hr
                | ok sr =>
                  rw [hst] at hr
                  simp only [Except.map, Except.ok.injEq, Option.some.injEq] at hr
                  subst hr
                  rcases standard_turn_pend gs cid o g h4 sr hst with ⟨hp, hph⟩ | ⟨hp, hph⟩
                  · refine pendInv_of _ ?_ hph
                    rw [hp]
                    exact pendInv_none gs hinv h4
                  · exact pendInv_awaiting _ hp hph
              · rw [if_neg hvalid] at hr
                exact Option.noConfusion (Except.ok.inj hr)
          · rw [if_neg h5] at hr
            by_cases h6 : gs.game_phase = "GAME_IN_PROGRESS"
            · rw [if_pos h6] at hr
              cases hcur : gs.current_turn_entity_id with
              | none =>
                rw [hcur] at hr
                unfold gipFallback at hr
                cases hhd : gs.players.head? with
                | none =>
                  rw [hhd] at hr
                  exact Option.noConfusion (Except.ok.inj hr)
                | some kv =>
                  rw [hhd] at hr
                  dsimp only at hr
                  by_cases hk : kv.1 = ""
                  · rw [if_pos hk] at hr
                    exact Option.noConfusion (Except.ok.inj hr)
                  · rw [if_neg hk] at hr
                    cases hst : handle_standard_turn
                        { gs with current_turn_entity_id := some kv.1 } kv.1 o g with
                    | error e =>
                      rw [hst] at hr
                      exact Except.noConfusion hr
                    | ok sr =>
                      rw [hst] at hr
                      simp only [Except.map, Except.ok.injEq, Option.some.injEq] at hr
                      subst hr
                      rcases standard_turn_pend
                          { gs with current_turn_entity_id := some kv.1 } kv.1 o g h4 sr hst with
                        ⟨hp, hph⟩ | ⟨hp, hph⟩
                      · refine pendInv_of _ ?_ hph
                        rw [hp]
                        exact pendInv_none gs hinv h4
                      · exact pendInv_awaiting _ hp hph
              | some cid =>
                rw [hcur] at hr
                dsimp only at hr
                by_cases hvalid : cid ≠ "" ∧ dictContains gs.players cid = true
                · rw [if_pos hvalid] at hr
                  cases hst : handle_standard_turn gs cid o g with
                  | error e =>
                    rw [hst] at hr
                    exact Except.noConfusion hr
                  | ok sr =>
                    rw [hst] at hr
                    simp only [Except.map, Except.ok.injEq, Option.some.injEq] at hr
                    subst hr
                    rcases standard_turn_pend gs cid o g h4 sr hst with
                      ⟨hp, hph⟩ | ⟨hp, hph⟩
                    · refine pendInv_of _ ?_ hph
                      rw [hp]
                      exact pendInv_none gs hinv h4
                    · exact pendInv_awaiting _ hp hph
                · rw [if_neg hvalid] at hr
                  unfold gipFallback at hr
                  cases hhd : gs.players.head? with
                  | none =>
                    rw [hhd] at hr
                    exact Option.noConfusion (Except.ok.inj hr)
                  | some kv =>
                    rw [hhd] at hr
                    dsimp only at hr
                    by_cases hk : kv.1 = ""
                    · rw [if_pos hk] at hr
                      exact Option.noConfusion (Except.ok.inj hr)
                    · rw [if_neg hk] at hr
                      cases hst : handle_standard_turn
                          { gs with current_turn_entity_id := some kv.1 } kv.1 o g with
                      | error e =>
                        rw [hst] at hr
                        exact Except.noConfusion hr
                      | ok sr =>
                        rw [hst] at hr
                        simp only [Except.map, Except.ok.injEq, Option.some.injEq] at hr
                        subst hr
                        rcases standard_turn_pend
                            { gs with current_turn_entity_id := some kv.1 } kv.1 o g h4 sr hst with
                          ⟨hp, hph⟩ | ⟨hp, hph⟩
                        · refine pendInv_of _ ?_ hph
                          rw [hp]
                          exact pendInv_none gs hinv h4
                        · exact pendInv_awaiting _ hp hph
            · rw [if_neg h6] at hr
              simp only [Except.ok.injEq, Option.some.injEq] at hr
              subst hr
              exact hinv

-- ### Claim C3 — the pending-action/phase invariant is preserved

/-- C3: in every state the dispatcher persists (FORCE_GAME_STATE excluded),
`pending_action` is present iff `game_phase = AWAITING_DICE_ROLL_CONFIRMATION`:
if the snapshot satisfies the invariant, then every state written by
`process_game_action_task` satisfies it — skill-check phase 1 sets the
pending action and the phase together, phase-2 resolution clears both, and
every other transition leaves the invariant intact. -/
theorem claim_C3 (p : TaskPayload) (o : Oracle) (g : Rng)
    (hinv : pendInv p.game_state)
    (hforce : actionTextOf p ≠ "FORCE_GAME_STATE") :
    ∀ out, process_game_action_task p o g = .ok out →
      ∀ s ∈ out.writes, pendInv s := by
  intro out hout s hs
  rw [process_task_nonforce p o g hforce] at hout
  cases hd : dispatchBranch p.game_state (actionTextOf p) o g with
  | error e =>
    rw [hd] at hout
    exact Except.noConfusion hout
  | ok ro =>
    rw [hd] at hout
    cases ro with
    | none =>
      dsimp only at hout
      have hw : out.writes = [] := by
        have h := Except.ok.inj hout
        rw [← h]
      rw [hw] at hs
      exact absurd hs (List.not_mem_nil s)
    | some r =>
      dsimp only at hout
      have hrfin := Except.ok.inj hout
      have hinv1 : pendInv r.1 :=
        dispatchBranch_inv p.game_state (actionTextOf p) o g hinv r hd
      obtain ⟨rest, hw, hrest⟩ := postTurn_writes_cases p.game_state.game_phase r.1 r.2.1
      rw [← hrfin, hw] at hs
      rcases List.mem_cons.mp hs with he | hm
      · rw [he]
        exact hinv1
      · obtain ⟨hp, hph, _, _⟩ := hrest s hm
        unfold pendInv
        rw [hp, hph]
        exact hinv1

theorem claim_C3_witness :
    pendInv fxGipPayload.game_state ∧
    actionTextOf fxGipPayload ≠ "FORCE_GAME_STATE" ∧
    (∀ out, process_game_action_task fxGipPayload fxOracle ⟨[3]⟩ = .ok out →
      ∀ s ∈ out.writes, pendInv s) :=
  ⟨by unfold pendInv; decide, by decide,
    claim_C3 fxGipPayload fxOracle ⟨[3]⟩ (by unfold pendInv; decide) (by decide)⟩
